import Mathlib

/-
  Verification of the VolSync handler of the ramen repository
  (package volsync, file vshandler.go).

  The cluster-facing behaviour is modelled as pure state transformers over a
  ClusterState record that holds the externally-managed objects (secrets,
  ReplicationSources, ReplicationDestinations, PVCs, pods, storage classes,
  volume snapshot classes, service exports).  The Kubernetes API layer is
  modelled as reliable: Get either finds the object or reports not-found,
  and Create/Update/Delete succeed.  Transient infrastructure failures are
  outside the scope of the verified claims.  CreateOrUpdate is modelled as
  fetch-or-init, apply the mutation function, then store the mutated object
  (the real client skips the write when nothing changed; the resulting state
  is identical).
-/

namespace VolSync

/-! ## Constants from vshandler.go -/

def ServiceExportKind : String := "ServiceExport"

def VolumeSnapshotKind : String := "VolumeSnapshot"

def VolumeSnapshotIsDefaultAnnotKey : String := "snapshot.storage.kubernetes.io/is-default-class"

def VolumeSnapshotIsDefaultAnnotValue : String := "true"

def VRGOwnerLabel : String := "volumereplicationgroups-owner"

def FinalSyncTriggerString : String := "vrg-final-sync"

def SchedulingIntervalMinLength : Nat := 2

def CronSpecMaxDayOfMonth : Int := 28

def VolSyncDoNotDeleteLabel : String := "volsync.backube/do-not-delete"

def VolSyncDoNotDeleteLabelVal : String := "true"

def ACMAppSubDoNotDeleteLabel : String := "do-not-delete"

def ACMAppSubDoNotDeleteLabelVal : String := "true"

/-- The corev1.ReadWriteOnce access mode used as default. -/
def ReadWriteOnce : String := "ReadWriteOnce"

/-- volsyncv1alpha1.CopyMethodSnapshot. -/
def CopyMethodSnapshot : String := "Snapshot"

/-- corev1.ClaimBound phase value. -/
def ClaimBound : String := "Bound"

/-- The ACM reconcile-option key inspected by PreparePVCForFinalSync. -/
def ACMReconcileOptionKey : String := "apps.open-cluster-management.io/reconcile-option"

/-- The ACM key namespace whose entries PreparePVCForFinalSync strips. -/
def ACMKeySpace : String := "apps.open-cluster-management.io"

/-- Modelled from the spec: the shared transport secret is a pre-existing
credential keyed by the Owner name (its generator lives outside the provided
sources); the handler only derives the name from the owner name. -/
def GetVolSyncSSHSecretNameFromVRGName (vrgName : String) : String := vrgName

/-- Modelled from the spec: DefaultRsyncServiceType is a fixed default constant
declared outside the provided sources; its exact value is irrelevant here. -/
def DefaultRsyncServiceType : String := "ClusterIP"

/-- Modelled from the spec: DefaultScheduleCronSpec is a fixed default constant
declared outside the provided sources, used only when the configured
scheduling interval is empty. -/
def DefaultScheduleCronSpec : String := "*/10 * * * *"

/-! ## Label / annotation maps (Go map[string]string as association lists) -/

abbrev KVMap := List (String × String)

/-- Lookup in a Go string map. -/
def getKV (m : KVMap) (k : String) : Option String :=
  (m.find? (fun p => decide (p.1 = k))).map (fun p => p.2)

/-- Assignment m[k] = v in a Go string map. -/
def setKV (m : KVMap) (k v : String) : KVMap :=
  (k, v) :: m.filter (fun p => decide (p.1 ≠ k))

/-! ## Go strconv.Atoi (sign and decimal digits, with the 64-bit int range
check: on the target platforms int is int64, so a numeric string whose value
falls outside [-2^63, 2^63-1] makes Atoi return ErrRange, i.e. a non-nil
error, modelled as none) -/

def digitVal (c : Char) : Option Nat :=
  if '0' ≤ c ∧ c ≤ '9' then some (c.toNat - '0'.toNat) else none

def parseDigitsAux : List Char → Nat → Option Nat
  | [], acc => some acc
  | c :: cs, acc =>
    match digitVal c with
    | some d => parseDigitsAux cs (acc * 10 + d)
    | none => none

def maxInt64Nat : Nat := 9223372036854775807

def negMinInt64Nat : Nat := 9223372036854775808

def atoiGo (s : String) : Option Int :=
  match s.data with
  | [] => none
  | '+' :: rest =>
    if rest = [] then none
    else
      match parseDigitsAux rest 0 with
      | none => none
      | some n => if n ≤ maxInt64Nat then some (n : Int) else none
  | '-' :: rest =>
    if rest = [] then none
    else
      match parseDigitsAux rest 0 with
      | none => none
      | some n => if n ≤ negMinInt64Nat then some (-(n : Int)) else none
  | cs =>
    match parseDigitsAux cs 0 with
    | none => none
    | some n => if n ≤ maxInt64Nat then some (n : Int) else none

/-! ## ConvertSchedulingIntervalToCronSpec -/

/-- strings.ToLower, character by character (the interval strings are ASCII). -/
def strToLowerGo (s : String) : String := String.mk (s.data.map Char.toLower)

def ConvertSchedulingIntervalToCronSpec (schedulingInterval : String) :
    Except String String :=
  if schedulingInterval.length < SchedulingIntervalMinLength then
    .error ("scheduling interval " ++ schedulingInterval ++ " is invalid")
  else
    let mhd := strToLowerGo (schedulingInterval.takeRight 1)
    let num := schedulingInterval.dropRight 1
    match atoiGo num with
    | none =>
      .error ("scheduling interval prefix " ++ num ++ " cannot be convered to an int value")
    | some numInt =>
      let num2 := if mhd = "d" ∧ numInt > CronSpecMaxDayOfMonth then "28" else num
      let cronSpec :=
        if mhd = "m" then "*/" ++ num ++ " * * * *"
        else if mhd = "h" then "0 */" ++ num ++ " * * *"
        else if mhd = "d" then "0 0 */" ++ num2 ++ " * *"
        else ""
      if cronSpec = "" then
        .error ("scheduling interval " ++ schedulingInterval ++ " is invalid. Unable to parse m/h/d")
      else .ok cronSpec

/-! ## Data model: the externally managed objects -/

/-- corev1.TypedLocalObjectReference (APIGroup, Kind, Name). -/
structure TypedLocalObjectReference where
  apiGroup : Option String
  kind : String
  name : String
deriving DecidableEq

/-- volsyncv1alpha1.ReplicationSourceTriggerSpec. -/
structure ReplicationSourceTriggerSpec where
  schedule : Option String
  manual : String
deriving DecidableEq

/-- The ReplicationSource spec fields managed by the handler. -/
structure ReplicationSourceSpecData where
  sourcePVC : String
  trigger : Option ReplicationSourceTriggerSpec
  sshKeys : Option String
  address : Option String
  copyMethod : String
  volumeSnapshotClassName : Option String
deriving DecidableEq

/-- volsyncv1alpha1.ReplicationSourceStatus (the fields the handler reads).
lastSyncTime models the *metav1.Time pointer; a 0 value is a zero Time. -/
structure ReplicationSourceStatusData where
  lastManualSync : String
  lastSyncTime : Option Nat
deriving DecidableEq

/-- A ReplicationSource object on the cluster. -/
structure RSObj where
  name : String
  nspace : String
  labels : KVMap
  controllerRef : Option String
  spec : ReplicationSourceSpecData
  status : Option ReplicationSourceStatusData
deriving DecidableEq

/-- The ReplicationDestination spec fields managed by the handler. -/
structure ReplicationDestinationSpecData where
  serviceType : Option String
  sshKeys : Option String
  copyMethod : String
  capacity : String
  storageClassName : Option String
  accessModes : List String
  volumeSnapshotClassName : Option String
deriving DecidableEq

/-- volsyncv1alpha1.ReplicationDestinationStatus: rsyncAddress is
Status.Rsync (outer Option) and its Address (inner Option). -/
structure ReplicationDestinationStatusData where
  rsyncAddress : Option (Option String)
  latestImage : Option TypedLocalObjectReference
deriving DecidableEq

/-- A ReplicationDestination object on the cluster. -/
structure RDObj where
  name : String
  nspace : String
  labels : KVMap
  controllerRef : Option String
  spec : ReplicationDestinationSpecData
  status : Option ReplicationDestinationStatusData
deriving DecidableEq

/-- A PersistentVolumeClaim. resources abstracts the (opaque to the handler)
corev1.ResourceRequirements value; phase is Status.Phase. -/
structure PVCObj where
  name : String
  nspace : String
  labels : KVMap
  annots : KVMap
  ownerRefs : List String
  accessModes : List String
  storageClassName : Option String
  dataSource : Option TypedLocalObjectReference
  resources : String
  phase : String
deriving DecidableEq

/-- A Secret (only identity and owner references matter to the handler). -/
structure SecretObj where
  name : String
  nspace : String
  ownerRefs : List String
deriving DecidableEq

/-- A Pod, reduced to the PVC claim names of its volumes (the indexed field). -/
structure PodObj where
  name : String
  nspace : String
  pvcClaimNames : List String
deriving DecidableEq

/-- A StorageClass (cluster scoped). -/
structure StorageClassObj where
  name : String
  provisioner : String
deriving DecidableEq

/-- A VolumeSnapshotClass (cluster scoped). -/
structure VolumeSnapshotClassObj where
  name : String
  driver : String
  labels : KVMap
  annots : KVMap
deriving DecidableEq

/-- A ServiceExport (modelled by identity plus owner references). -/
structure SvcExportObj where
  name : String
  nspace : String
  ownerRefs : List String
deriving DecidableEq

/-- The control-plane state the handler operates on. -/
structure ClusterState where
  secrets : List SecretObj
  rsList : List RSObj
  rdList : List RDObj
  pvcs : List PVCObj
  pods : List PodObj
  storageClasses : List StorageClassObj
  snapClasses : List VolumeSnapshotClassObj
  serviceExports : List SvcExportObj
deriving DecidableEq

/-- The VSHandler configuration (owner identity, scheduling interval, and the
volume snapshot class label selector as matchLabels). -/
structure VSHandler where
  ownerName : String
  ownerNamespace : String
  schedulingInterval : String
  volumeSnapshotClassSelector : KVMap
deriving DecidableEq

/-- ramendrv1alpha1.ProtectedPVC (the fields read by the handler). -/
structure ProtectedPVCData where
  name : String
  protectedByVolSync : Bool
  storageClassName : Option String
  accessModes : List String
  resources : String
  labels : KVMap
deriving DecidableEq

structure VolSyncReplicationDestinationSpec where
  protectedPVC : ProtectedPVCData
deriving DecidableEq

structure VolSyncReplicationSourceSpec where
  protectedPVC : ProtectedPVCData
deriving DecidableEq

/-! ## Keyed object lists (API server Get / Create / Update / Delete) -/

/-- Namespaced object key. -/
abbrev ObjKey := String × String

def rsKey (x : RSObj) : ObjKey := (x.name, x.nspace)

def rdKey (x : RDObj) : ObjKey := (x.name, x.nspace)

def pvcKey (x : PVCObj) : ObjKey := (x.name, x.nspace)

def secretKey (x : SecretObj) : ObjKey := (x.name, x.nspace)

def svcExportKey (x : SvcExportObj) : ObjKey := (x.name, x.nspace)

/-- Get an object by name and namespace. -/
def findByKey {α : Type} (key : α → ObjKey) (k : ObjKey) (l : List α) : Option α :=
  l.find? (fun x => decide (key x = k))

/-- Delete an object by name and namespace. -/
def removeByKey {α : Type} (key : α → ObjKey) (k : ObjKey) (l : List α) : List α :=
  l.filter (fun x => decide (key x ≠ k))

/-- Store the result of a Create or an Update of object o. -/
def upsertBy {α : Type} (key : α → ObjKey) (o : α) (l : List α) : List α :=
  o :: removeByKey key (key o) l

/-- ctrlutil.SetOwnerReference: append the owner if it is not referenced yet. -/
def insertIfAbsent (x : String) (l : List String) : List String :=
  if x ∈ l then l else l ++ [x]

/-- ctrl.SetControllerReference: set the controlling owner; error if the
object is already controlled by a different owner. -/
def setControllerReferenceGo (ownerName : String) :
    Option String → Except String (Option String)
  | none => .ok (some ownerName)
  | some existing =>
    if existing = ownerName then .ok (some ownerName)
    else .error "Object already owned by another controller"

/-! ## Small helpers from vshandler.go -/

def getReplicationDestinationName (pvcName : String) : String := pvcName

def getReplicationSourceName (pvcName : String) : String := pvcName

def getLocalServiceNameForRD (rdName : String) : String :=
  "volsync-rsync-dst-" ++ rdName

def getLocalServiceNameForRDFromPVCName (pvcName : String) : String :=
  getLocalServiceNameForRD (getReplicationDestinationName pvcName)

def getRemoteServiceNameForRDFromPVCName (pvcName rdNamespace : String) : String :=
  getLocalServiceNameForRDFromPVCName pvcName ++ "." ++ rdNamespace ++ ".svc.clusterset.local"

def objectRefMatches : Option TypedLocalObjectReference → Option TypedLocalObjectReference → Bool
  | none, b => b.isNone
  | some _, none => false
  | some a, some b => decide (a.kind = b.kind ∧ a.name = b.name)

def isLatestImageReady : Option TypedLocalObjectReference → Bool
  | none => false
  | some li => decide (¬ li.name = "" ∧ li.kind = VolumeSnapshotKind)

def isRSLastSyncTimeReady : Option ReplicationSourceStatusData → Bool
  | none => false
  | some st =>
    match st.lastSyncTime with
    | none => false
    | some t => decide (¬ t = 0)

def isFinalSyncComplete (rs : RSObj) : Bool :=
  match rs.status with
  | none => false
  | some st => decide (st.lastManualSync = FinalSyncTriggerString)

def rdStatusReady (rd : RDObj) : Bool :=
  match rd.status with
  | none => false
  | some st =>
    match st.rsyncAddress with
    | none => false
    | some none => false
    | some (some _) => isLatestImageReady st.latestImage

/-- addVRGOwnerLabel on an object's label map. -/
def addVRGOwnerLabel (ownerName : String) (labels : KVMap) : KVMap :=
  setKV labels VRGOwnerLabel ownerName

/-- VSHandler.addLabel: returns the new label map and whether it changed. -/
def addLabelGo (labels : KVMap) (labelName labelValue : String) : KVMap × Bool :=
  match getKV labels labelName with
  | some v => if v = labelValue then (labels, false) else (setKV labels labelName labelValue, true)
  | none => (setKV labels labelName labelValue, true)

def isDefaultVolumeSnapshotClass (vsc : VolumeSnapshotClassObj) : Bool :=
  decide (getKV vsc.annots VolumeSnapshotIsDefaultAnnotKey = some VolumeSnapshotIsDefaultAnnotValue)

/-- metav1.LabelSelectorAsSelector on matchLabels, applied to object labels. -/
def selectorMatches (sel : KVMap) (labels : KVMap) : Bool :=
  sel.all (fun kv => decide (getKV labels kv.1 = some kv.2))

/-- VSHandler.GetVolumeSnapshotClasses: snapshot classes filtered by the
handler's label selector. -/
def GetVolumeSnapshotClasses (h : VSHandler) (s : ClusterState) : List VolumeSnapshotClassObj :=
  s.snapClasses.filter (fun vsc => selectorMatches h.volumeSnapshotClassSelector vsc.labels)

/-- The matched-name loop of GetVolumeSnapshotClassFromPVCStorageClass. -/
def pickVolumeSnapshotClassName (provisioner : String)
    (classes : List VolumeSnapshotClassObj) : String :=
  classes.foldl
    (fun matched vsc =>
      if vsc.driver = provisioner ∧ (matched = "" ∨ isDefaultVolumeSnapshotClass vsc = true) then
        vsc.name
      else matched)
    ""

def GetVolumeSnapshotClassFromPVCStorageClass (h : VSHandler) (s : ClusterState)
    (storageClassName : Option String) : Except String String :=
  match storageClassName with
  | none => .error "no storageClassName given, cannot proceed"
  | some scName =>
    if scName = "" then .error "no storageClassName given, cannot proceed"
    else
      match s.storageClasses.find? (fun sc => decide (sc.name = scName)) with
      | none => .error "error getting storage class"
      | some storageClass =>
        let matched := pickVolumeSnapshotClassName storageClass.provisioner
          (GetVolumeSnapshotClasses h s)
        if matched = "" then
          .error ("unable to find matching volumesnapshotclass for storage provisioner "
            ++ storageClass.provisioner)
        else .ok matched

def getScheduleCronSpec (h : VSHandler) : Except String String :=
  if ¬ h.schedulingInterval = "" then ConvertSchedulingIntervalToCronSpec h.schedulingInterval
  else .ok DefaultScheduleCronSpec

/-! ## PVC / secret access -/

/-- VSHandler.getPVC (Get by name in the owner namespace). -/
def getPVC (h : VSHandler) (s : ClusterState) (pvcName : String) : Option PVCObj :=
  findByKey pvcKey (pvcName, h.ownerNamespace) s.pvcs

/-- VSHandler.isPvcInUse: pods of the owner namespace mounting the claim,
found through the claim-name index. -/
def isPvcInUse (h : VSHandler) (s : ClusterState) (pvcName : String) : Bool :=
  decide (¬ (s.pods.filter
    (fun pod => decide (pod.nspace = h.ownerNamespace ∧ pvcName ∈ pod.pvcClaimNames))) = [])

/-- VSHandler.pvcExistsAndInUse (not-found is not an error). -/
def pvcExistsAndInUse (h : VSHandler) (s : ClusterState) (pvcName : String) : Bool :=
  match getPVC h s pvcName with
  | none => false
  | some _ => isPvcInUse h s pvcName

/-- VSHandler.deletePVC (not-found is ignored). -/
def deletePVC (h : VSHandler) (pvcName : String) (s : ClusterState) : ClusterState :=
  { s with pvcs := removeByKey pvcKey (pvcName, h.ownerNamespace) s.pvcs }

/-- VSHandler.validateSecretAndAddVRGOwnerRef: false when the secret is
missing (not an error); otherwise the VRG is added as an owner. -/
def validateSecretAndAddVRGOwnerRef (h : VSHandler) (secretName : String)
    (s : ClusterState) : Bool × ClusterState :=
  match findByKey secretKey (secretName, h.ownerNamespace) s.secrets with
  | none => (false, s)
  | some secret =>
    let secret2 : SecretObj := { secret with ownerRefs := insertIfAbsent h.ownerName secret.ownerRefs }
    (true, { s with secrets := upsertBy secretKey secret2 s.secrets })

/-- VSHandler.validatePVCAndAddVRGOwnerRef: error when the PVC is missing;
otherwise stamp the ACM do-not-delete label and the VRG owner reference. -/
def validatePVCAndAddVRGOwnerRef (h : VSHandler) (pvcName : String)
    (s : ClusterState) : Except String (PVCObj × ClusterState) :=
  match getPVC h s pvcName with
  | none => .error ("error getting pvc " ++ pvcName)
  | some pvc =>
    let labels2 := (addLabelGo pvc.labels ACMAppSubDoNotDeleteLabel ACMAppSubDoNotDeleteLabelVal).1
    let pvc2 : PVCObj := { pvc with
      labels := labels2
      ownerRefs := insertIfAbsent h.ownerName pvc.ownerRefs }
    .ok (pvc2, { s with pvcs := upsertBy pvcKey pvc2 s.pvcs })

/-! ## Listing and deleting children by owner label -/

/-- VSHandler.listRSByOwner (in the owner namespace, by VRG owner label). -/
def listRSByOwner (h : VSHandler) (s : ClusterState) : List RSObj :=
  s.rsList.filter (fun rs =>
    decide (rs.nspace = h.ownerNamespace ∧ getKV rs.labels VRGOwnerLabel = some h.ownerName))

/-- VSHandler.listRDByOwner. -/
def listRDByOwner (h : VSHandler) (s : ClusterState) : List RDObj :=
  s.rdList.filter (fun rd =>
    decide (rd.nspace = h.ownerNamespace ∧ getKV rd.labels VRGOwnerLabel = some h.ownerName))

/-- One iteration of the DeleteRS loop. -/
def delRSStep (pvcName : String) (st : ClusterState) (rs : RSObj) : ClusterState :=
  if rs.name = getReplicationSourceName pvcName then
    { st with rsList := removeByKey rsKey (rsKey rs) st.rsList }
  else st

/-- VSHandler.DeleteRS: delete every owned ReplicationSource named after the
PVC (best effort; deletion failures cannot occur in the model). -/
def DeleteRS (h : VSHandler) (pvcName : String) (s : ClusterState) : ClusterState :=
  (listRSByOwner h s).foldl (delRSStep pvcName) s

/-- One iteration of the DeleteRD loop. -/
def delRDStep (pvcName : String) (st : ClusterState) (rd : RDObj) : ClusterState :=
  if rd.name = getReplicationDestinationName pvcName then
    { st with rdList := removeByKey rdKey (rdKey rd) st.rdList }
  else st

/-- VSHandler.DeleteRD. -/
def DeleteRD (h : VSHandler) (pvcName : String) (s : ClusterState) : ClusterState :=
  (listRDByOwner h s).foldl (delRDStep pvcName) s

/-! ## createOrUpdateRD / ReconcileRD -/

/-- The zero ReplicationDestination CreateOrUpdate starts from when the
object does not exist yet. -/
def newRDStub (nm ns : String) : RDObj :=
  { name := nm, nspace := ns, labels := [], controllerRef := none,
    spec := { serviceType := none, sshKeys := none, copyMethod := "", capacity := "",
              storageClassName := none, accessModes := [], volumeSnapshotClassName := none },
    status := none }

/-- The mutation function of createOrUpdateRD applied to the fetched (or
zero) object: controller reference, owner label, and the managed spec. -/
def rdMutation (h : VSHandler) (rdSpec : VolSyncReplicationDestinationSpec)
    (sshKeysSecretName volumeSnapshotClassName : String) (cref : Option String)
    (base : RDObj) : RDObj :=
  let pvcAccessModes :=
    if ¬ rdSpec.protectedPVC.accessModes = [] then rdSpec.protectedPVC.accessModes
    else [ReadWriteOnce]
  { base with
    controllerRef := cref
    labels := addVRGOwnerLabel h.ownerName base.labels
    spec := { serviceType := some DefaultRsyncServiceType
              sshKeys := some sshKeysSecretName
              copyMethod := CopyMethodSnapshot
              capacity := rdSpec.protectedPVC.resources
              storageClassName := rdSpec.protectedPVC.storageClassName
              accessModes := pvcAccessModes
              volumeSnapshotClassName := some volumeSnapshotClassName } }

/-- VSHandler.createOrUpdateRD. On success, returns the stored object and the
new state; any error leaves the state unchanged (the mutation aborts the
CreateOrUpdate before a write). -/
def createOrUpdateRD (h : VSHandler) (rdSpec : VolSyncReplicationDestinationSpec)
    (sshKeysSecretName : String) (s : ClusterState) : Except String (RDObj × ClusterState) :=
  match GetVolumeSnapshotClassFromPVCStorageClass h s rdSpec.protectedPVC.storageClassName with
  | .error e => .error e
  | .ok volumeSnapshotClassName =>
    let nm := getReplicationDestinationName rdSpec.protectedPVC.name
    let base := (findByKey rdKey (nm, h.ownerNamespace) s.rdList).getD
      (newRDStub nm h.ownerNamespace)
    match setControllerReferenceGo h.ownerName base.controllerRef with
    | .error e => .error e
    | .ok cref =>
      let rd : RDObj := rdMutation h rdSpec sshKeysSecretName volumeSnapshotClassName cref base
      .ok (rd, { s with rdList := upsertBy rdKey rd s.rdList })

/-- VSHandler.reconcileServiceExportForRD: CreateOrUpdate of the ServiceExport
for the RD's local service, owned by the RD itself. -/
def reconcileServiceExportForRD (_h : VSHandler) (rd : RDObj) (s : ClusterState) : ClusterState :=
  let nm := getLocalServiceNameForRD rd.name
  let base := (findByKey svcExportKey (nm, rd.nspace) s.serviceExports).getD
    { name := nm, nspace := rd.nspace, ownerRefs := [] }
  let se : SvcExportObj := { base with ownerRefs := insertIfAbsent rd.name base.ownerRefs }
  { s with serviceExports := upsertBy svcExportKey se s.serviceExports }

/-- VSHandler.ReconcileRD. The first component models the Go pair
(rd *ReplicationDestination, err): ok none is (nil, nil). -/
def ReconcileRD (h : VSHandler) (rdSpec : VolSyncReplicationDestinationSpec)
    (s : ClusterState) : Except String (Option RDObj) × ClusterState :=
  match rdSpec.protectedPVC.protectedByVolSync with
  | false =>
    (.error ("protectedPVC " ++ rdSpec.protectedPVC.name ++ " is not VolSync Enabled"), s)
  | true =>
    let sshKeysSecretName := GetVolSyncSSHSecretNameFromVRGName h.ownerName
    match validateSecretAndAddVRGOwnerRef h sshKeysSecretName s with
    | (false, s1) => (.ok none, s1)
    | (true, s1) =>
      let s2 := DeleteRS h rdSpec.protectedPVC.name s1
      match createOrUpdateRD h rdSpec sshKeysSecretName s2 with
      | .error e => (.error e, s2)
      | .ok (rd, s3) =>
        let s4 := reconcileServiceExportForRD h rd s3
        if rdStatusReady rd = true then (.ok (some rd), s4) else (.ok none, s4)

/-! ## createOrUpdateRS / ReconcileRS -/

def newRSStub (nm ns : String) : RSObj :=
  { name := nm, nspace := ns, labels := [], controllerRef := none,
    spec := { sourcePVC := "", trigger := none, sshKeys := none, address := none,
              copyMethod := "", volumeSnapshotClassName := none },
    status := none }

/-- The trigger computed by the createOrUpdateRS mutation: the fixed manual
final-sync token, or the cron schedule derived from the interval. -/
def rsTrigger (h : VSHandler) (runFinalSync : Bool) :
    Except String ReplicationSourceTriggerSpec :=
  match runFinalSync with
  | true => .ok { schedule := none, manual := FinalSyncTriggerString }
  | false =>
    match getScheduleCronSpec h with
    | .error e => .error e
    | .ok scheduleCronSpec => .ok { schedule := some scheduleCronSpec, manual := "" }

/-- The mutation function of createOrUpdateRS applied to the fetched (or
zero) object. -/
def rsMutation (h : VSHandler) (rsSpec : VolSyncReplicationSourceSpec)
    (sshKeysSecretName volumeSnapshotClassName : String)
    (trig : ReplicationSourceTriggerSpec) (cref : Option String) (base : RSObj) : RSObj :=
  { base with
    controllerRef := cref
    labels := addVRGOwnerLabel h.ownerName base.labels
    spec := { sourcePVC := rsSpec.protectedPVC.name
              trigger := some trig
              sshKeys := some sshKeysSecretName
              address := some (getRemoteServiceNameForRDFromPVCName
                rsSpec.protectedPVC.name h.ownerNamespace)
              copyMethod := CopyMethodSnapshot
              volumeSnapshotClassName := some volumeSnapshotClassName } }

/-- VSHandler.createOrUpdateRS. -/
def createOrUpdateRS (h : VSHandler) (rsSpec : VolSyncReplicationSourceSpec)
    (sshKeysSecretName : String) (runFinalSync : Bool) (s : ClusterState) :
    Except String (RSObj × ClusterState) :=
  match GetVolumeSnapshotClassFromPVCStorageClass h s rsSpec.protectedPVC.storageClassName with
  | .error e => .error e
  | .ok volumeSnapshotClassName =>
    let nm := getReplicationSourceName rsSpec.protectedPVC.name
    let base := (findByKey rsKey (nm, h.ownerNamespace) s.rsList).getD
      (newRSStub nm h.ownerNamespace)
    match setControllerReferenceGo h.ownerName base.controllerRef with
    | .error e => .error e
    | .ok cref =>
      match rsTrigger h runFinalSync with
      | .error e => .error e
      | .ok trig =>
        let rs : RSObj :=
          rsMutation h rsSpec sshKeysSecretName volumeSnapshotClassName trig cref base
        .ok (rs, { s with rsList := upsertBy rsKey rs s.rsList })

/-- VSHandler.validatePVCBeforeFinalSync (a missing PVC counts as not in
use; the model's in-use lookup cannot fail). -/
def validatePVCBeforeFinalSync (h : VSHandler) (pvcName : String) (runFinalSync : Bool)
    (s : ClusterState) : Bool :=
  match runFinalSync with
  | false => true
  | true => ! pvcExistsAndInUse h s pvcName

/-- VSHandler.cleanupAfterRSFinalSync. -/
def cleanupAfterRSFinalSync (h : VSHandler) (rsSpec : VolSyncReplicationSourceSpec)
    (s : ClusterState) : ClusterState :=
  deletePVC h rsSpec.protectedPVC.name s

/-- VSHandler.ReconcileRS. The first component models the Go triple
(finalSyncComplete bool, rs *ReplicationSource, err). -/
def ReconcileRS (h : VSHandler) (rsSpec : VolSyncReplicationSourceSpec) (runFinalSync : Bool)
    (s : ClusterState) : Except String (Bool × Option RSObj) × ClusterState :=
  match rsSpec.protectedPVC.protectedByVolSync with
  | false =>
    (.error ("protectedPVC " ++ rsSpec.protectedPVC.name ++ " is not VolSync Enabled"), s)
  | true =>
    let sshKeysSecretName := GetVolSyncSSHSecretNameFromVRGName h.ownerName
    match validateSecretAndAddVRGOwnerRef h sshKeysSecretName s with
    | (false, s1) => (.ok (false, none), s1)
    | (true, s1) =>
      let s2 := DeleteRD h rsSpec.protectedPVC.name s1
      match validatePVCBeforeFinalSync h rsSpec.protectedPVC.name runFinalSync s2 with
      | false => (.ok (false, none), s2)
      | true =>
        match createOrUpdateRS h rsSpec sshKeysSecretName runFinalSync s2 with
        | .error e => (.error e, s2)
        | .ok (replicationSource, s3) =>
          match isRSLastSyncTimeReady replicationSource.status with
          | false => (.ok (false, none), s3)
          | true =>
            if runFinalSync = true ∧ isFinalSyncComplete replicationSource = true then
              (.ok (true, some replicationSource), cleanupAfterRSFinalSync h rsSpec s3)
            else (.ok (false, some replicationSource), s3)

/-! ## PreparePVCForFinalSync -/

/-- VSHandler.PreparePVCForFinalSync. -/
def PreparePVCForFinalSync (h : VSHandler) (pvcName : String) (s : ClusterState) :
    Except String Bool × ClusterState :=
  match validatePVCAndAddVRGOwnerRef h pvcName s with
  | .error e => (.error e, s)
  | .ok (pvc, s1) =>
    let waitForAppSub :=
      match getKV pvc.annots ACMReconcileOptionKey with
      | some reconcileOption => decide (¬ reconcileOption = "merge")
      | none => false
    match waitForAppSub with
    | true => (.ok false, s1)
    | false =>
      let updatedAnnots := pvc.annots.filter (fun kv => ! kv.1.startsWith ACMKeySpace)
      let pvc2 : PVCObj := { pvc with annots := updatedAnnots }
      (.ok true, { s1 with pvcs := upsertBy pvcKey pvc2 s1.pvcs })

/-! ## ensurePVCFromSnapshot -/

/-- The zero PersistentVolumeClaim CreateOrUpdate starts from when the claim
does not exist yet (CreationTimestamp is zero exactly for this stub). -/
def newPVCStub (nm ns : String) : PVCObj :=
  { name := nm, nspace := ns, labels := [], annots := [], ownerRefs := [],
    accessModes := [], storageClassName := none, dataSource := none,
    resources := "", phase := "" }

/-- The tail of the ensurePVCFromSnapshot mutation function (after the
recreation and already-bound early returns): merge labels, set the immutable
fields on first creation only, and always re-apply the resource requests. -/
def ensurePVCMutation (rdSpec : VolSyncReplicationDestinationSpec)
    (snapshotRef : TypedLocalObjectReference) (pvc : PVCObj)
    (creationTsIsZero : Bool) : PVCObj :=
  let labels2 :=
    if pvc.labels = [] then rdSpec.protectedPVC.labels
    else rdSpec.protectedPVC.labels.foldl (fun m kv => setKV m kv.1 kv.2) pvc.labels
  let accessModes :=
    if ¬ rdSpec.protectedPVC.accessModes = [] then rdSpec.protectedPVC.accessModes
    else [ReadWriteOnce]
  let pvc1 : PVCObj := { pvc with labels := labels2 }
  let pvc2 : PVCObj :=
    if creationTsIsZero = true then
      { pvc1 with
        accessModes := accessModes
        storageClassName := rdSpec.protectedPVC.storageClassName
        dataSource := some snapshotRef }
    else pvc1
  { pvc2 with resources := rdSpec.protectedPVC.resources }

/-- VSHandler.ensurePVCFromSnapshot. The data-source-mismatch branch submits
no change, deletes the claim and fails with the recreation-required error;
the already-bound branch submits the object unchanged. -/
def ensurePVCFromSnapshot (h : VSHandler) (rdSpec : VolSyncReplicationDestinationSpec)
    (snapshotRef : TypedLocalObjectReference) (s : ClusterState) :
    Except String PVCObj × ClusterState :=
  let nm := rdSpec.protectedPVC.name
  let existing := getPVC h s nm
  let base := existing.getD (newPVCStub nm h.ownerNamespace)
  match existing with
  | some pvc =>
    if objectRefMatches pvc.dataSource (some snapshotRef) = false then
      (.error ("pvc has incorrect datasource, will need to delete and recreate, pvc: " ++ nm),
       { s with pvcs := removeByKey pvcKey (nm, h.ownerNamespace) s.pvcs })
    else if pvc.phase = ClaimBound then
      (.ok pvc, { s with pvcs := upsertBy pvcKey pvc s.pvcs })
    else
      let pvc3 := ensurePVCMutation rdSpec snapshotRef base false
      (.ok pvc3, { s with pvcs := upsertBy pvcKey pvc3 s.pvcs })
  | none =>
    let pvc3 := ensurePVCMutation rdSpec snapshotRef base true
    (.ok pvc3, { s with pvcs := upsertBy pvcKey pvc3 s.pvcs })

/-! ## Data-protection predicates -/

/-- VSHandler.getRDLatestImage (not-found yields nil, nil). -/
def getRDLatestImage (h : VSHandler) (s : ClusterState) (pvcName : String) :
    Option TypedLocalObjectReference :=
  match findByKey rdKey (getReplicationDestinationName pvcName, h.ownerNamespace) s.rdList with
  | none => none
  | some rdInst =>
    match rdInst.status with
    | none => none
    | some st => st.latestImage

/-- VSHandler.IsRDDataProtected: a pure read of observed status. -/
def IsRDDataProtected (h : VSHandler) (s : ClusterState) (pvcName : String) : Bool :=
  isLatestImageReady (getRDLatestImage h s pvcName)

/-- VSHandler.IsRSDataProtected: a pure read of observed status. -/
def IsRSDataProtected (h : VSHandler) (s : ClusterState) (pvcName : String) : Bool :=
  match findByKey rsKey (getReplicationSourceName pvcName, h.ownerNamespace) s.rsList with
  | none => false
  | some rs => isRSLastSyncTimeReady rs.status

/-! ## Call sequences (for the mutual-exclusion invariant) -/

/-- One public reconcile entry-point invocation. -/
inductive ReconcileOp where
  | rd (rdSpec : VolSyncReplicationDestinationSpec)
  | rs (rsSpec : VolSyncReplicationSourceSpec) (runFinalSync : Bool)
deriving DecidableEq

def applyOp (h : VSHandler) (op : ReconcileOp) (s : ClusterState) : ClusterState :=
  match op with
  | .rd rdSpec => (ReconcileRD h rdSpec s).2
  | .rs rsSpec runFinalSync => (ReconcileRS h rsSpec runFinalSync s).2

def runOps (h : VSHandler) (ops : List ReconcileOp) (s : ClusterState) : ClusterState :=
  ops.foldl (fun st op => applyOp h op st) s

/-- All RS children live in the owner namespace and carry the owner label
(true of every RS the handler itself creates). -/
def OwnedRS (h : VSHandler) (s : ClusterState) : Prop :=
  ∀ rs ∈ s.rsList,
    rs.nspace = h.ownerNamespace ∧ getKV rs.labels VRGOwnerLabel = some h.ownerName

def OwnedRD (h : VSHandler) (s : ClusterState) : Prop :=
  ∀ rd ∈ s.rdList,
    rd.nspace = h.ownerNamespace ∧ getKV rd.labels VRGOwnerLabel = some h.ownerName

/-- No volume name carries both a ReplicationSource and a
ReplicationDestination. -/
def MutexRSRD (s : ClusterState) : Prop :=
  ∀ rs ∈ s.rsList, ∀ rd ∈ s.rdList, ¬ rs.name = rd.name

/-- The reachable-state invariant of the handler. -/
def VSInvariant (h : VSHandler) (s : ClusterState) : Prop :=
  OwnedRS h s ∧ OwnedRD h s ∧ MutexRSRD s

/-! ## Toolkit lemmas about keyed lists and maps -/

theorem mem_of_mem_removeByKey {α : Type} (key : α → ObjKey) (k : ObjKey) (l : List α)
    (x : α) (hx : x ∈ removeByKey key k l) : x ∈ l :=
  List.mem_of_mem_filter hx

theorem key_ne_of_mem_removeByKey {α : Type} (key : α → ObjKey) (k : ObjKey) (l : List α)
    (x : α) (hx : x ∈ removeByKey key k l) : ¬ key x = k := by
  have := List.of_mem_filter hx
  exact of_decide_eq_true this

theorem removeByKey_filter_self {α : Type} (key : α → ObjKey) (k : ObjKey) (l : List α) :
    removeByKey key k (removeByKey key k l) = removeByKey key k l := by
  apply List.filter_eq_self.mpr
  intro a ha
  exact decide_eq_true (key_ne_of_mem_removeByKey key k l a ha)

theorem removeByKey_cons_self {α : Type} (key : α → ObjKey) (o : α) (l : List α) :
    removeByKey key (key o) (o :: l) = removeByKey key (key o) l := by
  unfold removeByKey
  rw [List.filter_cons]
  simp

theorem upsertBy_idem {α : Type} (key : α → ObjKey) (o : α) (l : List α) :
    upsertBy key o (upsertBy key o l) = upsertBy key o l := by
  unfold upsertBy
  rw [removeByKey_cons_self, removeByKey_filter_self]

theorem findByKey_cons_self {α : Type} (key : α → ObjKey) (o : α) (l : List α) :
    findByKey key (key o) (o :: l) = some o := by
  unfold findByKey
  rw [List.find?_cons_of_pos]
  exact decide_eq_true rfl

theorem findByKey_upsertBy_self {α : Type} (key : α → ObjKey) (o : α) (l : List α) :
    findByKey key (key o) (upsertBy key o l) = some o :=
  findByKey_cons_self key o (removeByKey key (key o) l)

theorem findByKey_eq_some_key {α : Type} (key : α → ObjKey) (k : ObjKey) (l : List α)
    (x : α) (hx : findByKey key k l = some x) : key x = k := by
  have := List.find?_some hx
  exact of_decide_eq_true this

theorem findByKey_eq_some_mem {α : Type} (key : α → ObjKey) (k : ObjKey) (l : List α)
    (x : α) (hx : findByKey key k l = some x) : x ∈ l :=
  List.mem_of_find?_eq_some hx

theorem findByKey_removeByKey_self {α : Type} (key : α → ObjKey) (k : ObjKey) (l : List α) :
    findByKey key k (removeByKey key k l) = none := by
  cases hf : findByKey key k (removeByKey key k l) with
  | none => rfl
  | some x =>
    exact absurd (findByKey_eq_some_key key k _ x hf)
      (key_ne_of_mem_removeByKey key k l x (findByKey_eq_some_mem key k _ x hf))

theorem insertIfAbsent_self_mem (x : String) (l : List String) : x ∈ insertIfAbsent x l := by
  unfold insertIfAbsent
  split
  · assumption
  · exact List.mem_append_right l (List.mem_singleton.mpr rfl)

theorem insertIfAbsent_idem (x : String) (l : List String) :
    insertIfAbsent x (insertIfAbsent x l) = insertIfAbsent x l := by
  conv_lhs => rw [insertIfAbsent]
  rw [if_pos (insertIfAbsent_self_mem x l)]

theorem setKV_filter_self (m : KVMap) (k v : String) :
    (setKV m k v).filter (fun p => decide (p.1 ≠ k)) = m.filter (fun p => decide (p.1 ≠ k)) := by
  unfold setKV
  rw [List.filter_cons]
  rw [if_neg (by simp)]
  apply List.filter_eq_self.mpr
  intro a ha
  exact (List.mem_filter.mp ha).2

theorem setKV_idem (m : KVMap) (k v : String) : setKV (setKV m k v) k v = setKV m k v := by
  conv_lhs => rw [setKV, setKV_filter_self]
  rfl

theorem getKV_setKV_self (m : KVMap) (k v : String) : getKV (setKV m k v) k = some v := by
  unfold getKV setKV
  rw [List.find?_cons_of_pos]
  · rfl
  · exact decide_eq_true rfl

/-- foldl with a step function that preserves a projection preserves it. -/
theorem foldl_preserves {α β γ : Type} (f : β → α → β) (proj : β → γ)
    (hp : ∀ b a, proj (f b a) = proj b) :
    ∀ (l : List α) (b : β), proj (l.foldl f b) = proj b := by
  intro l
  induction l with
  | nil => intro b; rfl
  | cons a l ih =>
    intro b
    rw [List.foldl_cons, ih, hp]

/-! ## Frame and effect lemmas for DeleteRS / DeleteRD -/

/-- Forget the ReplicationSource list (to state frame properties). -/
def eraseRS (s : ClusterState) : ClusterState := { s with rsList := [] }

/-- Forget the ReplicationDestination list. -/
def eraseRD (s : ClusterState) : ClusterState := { s with rdList := [] }

theorem DeleteRS_eraseRS (h : VSHandler) (p : String) (s : ClusterState) :
    eraseRS (DeleteRS h p s) = eraseRS s :=
  foldl_preserves (delRSStep p) eraseRS
    (fun st rs => by unfold delRSStep eraseRS; split <;> rfl) (listRSByOwner h s) s

theorem DeleteRD_eraseRD (h : VSHandler) (p : String) (s : ClusterState) :
    eraseRD (DeleteRD h p s) = eraseRD s :=
  foldl_preserves (delRDStep p) eraseRD
    (fun st rd => by unfold delRDStep eraseRD; split <;> rfl) (listRDByOwner h s) s

theorem DeleteRS_secrets (h : VSHandler) (p : String) (s : ClusterState) :
    (DeleteRS h p s).secrets = s.secrets := by
  have hframe := congrArg ClusterState.secrets (DeleteRS_eraseRS h p s)
  exact hframe

theorem DeleteRS_rdList (h : VSHandler) (p : String) (s : ClusterState) :
    (DeleteRS h p s).rdList = s.rdList := by
  have hframe := congrArg ClusterState.rdList (DeleteRS_eraseRS h p s)
  exact hframe

theorem DeleteRS_pvcs (h : VSHandler) (p : String) (s : ClusterState) :
    (DeleteRS h p s).pvcs = s.pvcs := by
  have hframe := congrArg ClusterState.pvcs (DeleteRS_eraseRS h p s)
  exact hframe

theorem DeleteRS_pods (h : VSHandler) (p : String) (s : ClusterState) :
    (DeleteRS h p s).pods = s.pods := by
  have hframe := congrArg ClusterState.pods (DeleteRS_eraseRS h p s)
  exact hframe

theorem DeleteRS_storageClasses (h : VSHandler) (p : String) (s : ClusterState) :
    (DeleteRS h p s).storageClasses = s.storageClasses := by
  have hframe := congrArg ClusterState.storageClasses (DeleteRS_eraseRS h p s)
  exact hframe

theorem DeleteRS_snapClasses (h : VSHandler) (p : String) (s : ClusterState) :
    (DeleteRS h p s).snapClasses = s.snapClasses := by
  have hframe := congrArg ClusterState.snapClasses (DeleteRS_eraseRS h p s)
  exact hframe

theorem DeleteRS_serviceExports (h : VSHandler) (p : String) (s : ClusterState) :
    (DeleteRS h p s).serviceExports = s.serviceExports := by
  have hframe := congrArg ClusterState.serviceExports (DeleteRS_eraseRS h p s)
  exact hframe

theorem DeleteRD_secrets (h : VSHandler) (p : String) (s : ClusterState) :
    (DeleteRD h p s).secrets = s.secrets := by
  have hframe := congrArg ClusterState.secrets (DeleteRD_eraseRD h p s)
  exact hframe

theorem DeleteRD_rsList (h : VSHandler) (p : String) (s : ClusterState) :
    (DeleteRD h p s).rsList = s.rsList := by
  have hframe := congrArg ClusterState.rsList (DeleteRD_eraseRD h p s)
  exact hframe

theorem DeleteRD_pvcs (h : VSHandler) (p : String) (s : ClusterState) :
    (DeleteRD h p s).pvcs = s.pvcs := by
  have hframe := congrArg ClusterState.pvcs (DeleteRD_eraseRD h p s)
  exact hframe

theorem DeleteRD_pods (h : VSHandler) (p : String) (s : ClusterState) :
    (DeleteRD h p s).pods = s.pods := by
  have hframe := congrArg ClusterState.pods (DeleteRD_eraseRD h p s)
  exact hframe

theorem DeleteRD_storageClasses (h : VSHandler) (p : String) (s : ClusterState) :
    (DeleteRD h p s).storageClasses = s.storageClasses := by
  have hframe := congrArg ClusterState.storageClasses (DeleteRD_eraseRD h p s)
  exact hframe

theorem DeleteRD_snapClasses (h : VSHandler) (p : String) (s : ClusterState) :
    (DeleteRD h p s).snapClasses = s.snapClasses := by
  have hframe := congrArg ClusterState.snapClasses (DeleteRD_eraseRD h p s)
  exact hframe

theorem DeleteRD_serviceExports (h : VSHandler) (p : String) (s : ClusterState) :
    (DeleteRD h p s).serviceExports = s.serviceExports := by
  have hframe := congrArg ClusterState.serviceExports (DeleteRD_eraseRD h p s)
  exact hframe

theorem delRSStep_rsList_subset (p : String) (st : ClusterState) (rs : RSObj) (x : RSObj)
    (hx : x ∈ (delRSStep p st rs).rsList) : x ∈ st.rsList := by
  unfold delRSStep at hx
  split at hx
  · exact mem_of_mem_removeByKey rsKey (rsKey rs) st.rsList x hx
  · exact hx

theorem delRSFold_rsList_subset (p : String) :
    ∀ (l : List RSObj) (st : ClusterState) (x : RSObj),
      x ∈ (l.foldl (delRSStep p) st).rsList → x ∈ st.rsList := by
  intro l
  induction l with
  | nil => intro st x hx; exact hx
  | cons rs l ih =>
    intro st x hx
    rw [List.foldl_cons] at hx
    exact delRSStep_rsList_subset p st rs x (ih (delRSStep p st rs) x hx)

theorem DeleteRS_rsList_subset (h : VSHandler) (p : String) (s : ClusterState) (x : RSObj)
    (hx : x ∈ (DeleteRS h p s).rsList) : x ∈ s.rsList :=
  delRSFold_rsList_subset p (listRSByOwner h s) s x hx

theorem delRDStep_rdList_subset (p : String) (st : ClusterState) (rd : RDObj) (x : RDObj)
    (hx : x ∈ (delRDStep p st rd).rdList) : x ∈ st.rdList := by
  unfold delRDStep at hx
  split at hx
  · exact mem_of_mem_removeByKey rdKey (rdKey rd) st.rdList x hx
  · exact hx

theorem delRDFold_rdList_subset (p : String) :
    ∀ (l : List RDObj) (st : ClusterState) (x : RDObj),
      x ∈ (l.foldl (delRDStep p) st).rdList → x ∈ st.rdList := by
  intro l
  induction l with
  | nil => intro st x hx; exact hx
  | cons rd l ih =>
    intro st x hx
    rw [List.foldl_cons] at hx
    exact delRDStep_rdList_subset p st rd x (ih (delRDStep p st rd) x hx)

theorem DeleteRD_rdList_subset (h : VSHandler) (p : String) (s : ClusterState) (x : RDObj)
    (hx : x ∈ (DeleteRD h p s).rdList) : x ∈ s.rdList :=
  delRDFold_rdList_subset p (listRDByOwner h s) s x hx

/-- If some listed RS is named after the PVC, the fold removes every RS with
that name in the common namespace. -/
theorem delRSFold_removes (p : String) (N : String) :
    ∀ (l : List RSObj) (st : ClusterState),
      (∀ rs ∈ l, rs.nspace = N) →
      (∃ rs ∈ l, rs.name = getReplicationSourceName p) →
      ∀ x ∈ (l.foldl (delRSStep p) st).rsList,
        ¬ (x.name = getReplicationSourceName p ∧ x.nspace = N) := by
  intro l
  induction l with
  | nil =>
    intro st _ hex
    rcases hex with ⟨rs, hmem, _⟩
    exact absurd hmem (List.not_mem_nil rs)
  | cons rs l ih =>
    intro st hns hex x hx hcontra
    rw [List.foldl_cons] at hx
    by_cases hname : rs.name = getReplicationSourceName p
    · have hstep : delRSStep p st rs =
          { st with rsList := removeByKey rsKey (rsKey rs) st.rsList } := by
        unfold delRSStep
        rw [if_pos hname]
      have hx2 := delRSFold_rsList_subset p l (delRSStep p st rs) x hx
      rw [hstep] at hx2
      have hkey := key_ne_of_mem_removeByKey rsKey (rsKey rs) st.rsList x hx2
      apply hkey
      unfold rsKey
      rw [hcontra.1, hcontra.2, hname, hns rs (List.mem_cons_self rs l)]
    · rcases hex with ⟨rs2, hmem2, hname2⟩
      rcases List.mem_cons.mp hmem2 with heq | hmem2
      · exact hname (heq ▸ hname2)
      · exact ih (delRSStep p st rs)
          (fun r hr => hns r (List.mem_cons_of_mem rs hr)) ⟨rs2, hmem2, hname2⟩ x hx hcontra

theorem delRDFold_removes (p : String) (N : String) :
    ∀ (l : List RDObj) (st : ClusterState),
      (∀ rd ∈ l, rd.nspace = N) →
      (∃ rd ∈ l, rd.name = getReplicationDestinationName p) →
      ∀ x ∈ (l.foldl (delRDStep p) st).rdList,
        ¬ (x.name = getReplicationDestinationName p ∧ x.nspace = N) := by
  intro l
  induction l with
  | nil =>
    intro st _ hex
    rcases hex with ⟨rd, hmem, _⟩
    exact absurd hmem (List.not_mem_nil rd)
  | cons rd l ih =>
    intro st hns hex x hx hcontra
    rw [List.foldl_cons] at hx
    by_cases hname : rd.name = getReplicationDestinationName p
    · have hstep : delRDStep p st rd =
          { st with rdList := removeByKey rdKey (rdKey rd) st.rdList } := by
        unfold delRDStep
        rw [if_pos hname]
      have hx2 := delRDFold_rdList_subset p l (delRDStep p st rd) x hx
      rw [hstep] at hx2
      have hkey := key_ne_of_mem_removeByKey rdKey (rdKey rd) st.rdList x hx2
      apply hkey
      unfold rdKey
      rw [hcontra.1, hcontra.2, hname, hns rd (List.mem_cons_self rd l)]
    · rcases hex with ⟨rd2, hmem2, hname2⟩
      rcases List.mem_cons.mp hmem2 with heq | hmem2
      · exact hname (heq ▸ hname2)
      · exact ih (delRDStep p st rd)
          (fun r hr => hns r (List.mem_cons_of_mem rd hr)) ⟨rd2, hmem2, hname2⟩ x hx hcontra

/-- After DeleteRS, no owner-labelled RS in the owner namespace is named
after the PVC. -/
theorem DeleteRS_no_owned (h : VSHandler) (p : String) (s : ClusterState) :
    ∀ x ∈ (DeleteRS h p s).rsList,
      x.nspace = h.ownerNamespace → getKV x.labels VRGOwnerLabel = some h.ownerName →
      ¬ x.name = getReplicationSourceName p := by
  intro x hx hns hlab hname
  have hxs : x ∈ s.rsList := DeleteRS_rsList_subset h p s x hx
  have hxowned : x ∈ listRSByOwner h s :=
    List.mem_filter.mpr ⟨hxs, decide_eq_true ⟨hns, hlab⟩⟩
  have hall : ∀ rs ∈ listRSByOwner h s, rs.nspace = h.ownerNamespace := by
    intro rs hrs
    exact (of_decide_eq_true (List.mem_filter.mp hrs).2).1
  exact delRSFold_removes p h.ownerNamespace (listRSByOwner h s) s hall
    ⟨x, hxowned, hname⟩ x hx ⟨hname, hns⟩

theorem DeleteRD_no_owned (h : VSHandler) (p : String) (s : ClusterState) :
    ∀ x ∈ (DeleteRD h p s).rdList,
      x.nspace = h.ownerNamespace → getKV x.labels VRGOwnerLabel = some h.ownerName →
      ¬ x.name = getReplicationDestinationName p := by
  intro x hx hns hlab hname
  have hxs : x ∈ s.rdList := DeleteRD_rdList_subset h p s x hx
  have hxowned : x ∈ listRDByOwner h s :=
    List.mem_filter.mpr ⟨hxs, decide_eq_true ⟨hns, hlab⟩⟩
  have hall : ∀ rd ∈ listRDByOwner h s, rd.nspace = h.ownerNamespace := by
    intro rd hrd
    exact (of_decide_eq_true (List.mem_filter.mp hrd).2).1
  exact delRDFold_removes p h.ownerNamespace (listRDByOwner h s) s hall
    ⟨x, hxowned, hname⟩ x hx ⟨hname, hns⟩

/-- A fold over a list without the target name is the identity. -/
theorem delRSFold_id (p : String) :
    ∀ (l : List RSObj) (st : ClusterState),
      (∀ rs ∈ l, ¬ rs.name = getReplicationSourceName p) →
      l.foldl (delRSStep p) st = st := by
  intro l
  induction l with
  | nil => intro st _; rfl
  | cons rs l ih =>
    intro st hl
    rw [List.foldl_cons]
    have hstep : delRSStep p st rs = st := by
      unfold delRSStep
      rw [if_neg (hl rs (List.mem_cons_self rs l))]
    rw [hstep]
    exact ih st (fun r hr => hl r (List.mem_cons_of_mem rs hr))

theorem delRDFold_id (p : String) :
    ∀ (l : List RDObj) (st : ClusterState),
      (∀ rd ∈ l, ¬ rd.name = getReplicationDestinationName p) →
      l.foldl (delRDStep p) st = st := by
  intro l
  induction l with
  | nil => intro st _; rfl
  | cons rd l ih =>
    intro st hl
    rw [List.foldl_cons]
    have hstep : delRDStep p st rd = st := by
      unfold delRDStep
      rw [if_neg (hl rd (List.mem_cons_self rd l))]
    rw [hstep]
    exact ih st (fun r hr => hl r (List.mem_cons_of_mem rd hr))

/-- DeleteRS is the identity when no owner-listed RS bears the PVC name. -/
theorem DeleteRS_id (h : VSHandler) (p : String) (s : ClusterState)
    (hnone : ∀ x ∈ s.rsList,
      x.nspace = h.ownerNamespace → getKV x.labels VRGOwnerLabel = some h.ownerName →
      ¬ x.name = getReplicationSourceName p) :
    DeleteRS h p s = s := by
  apply delRSFold_id
  intro rs hrs
  have hmem := (List.mem_filter.mp hrs).1
  have hprops := of_decide_eq_true (List.mem_filter.mp hrs).2
  exact hnone rs hmem hprops.1 hprops.2

theorem DeleteRD_id (h : VSHandler) (p : String) (s : ClusterState)
    (hnone : ∀ x ∈ s.rdList,
      x.nspace = h.ownerNamespace → getKV x.labels VRGOwnerLabel = some h.ownerName →
      ¬ x.name = getReplicationDestinationName p) :
    DeleteRD h p s = s := by
  apply delRDFold_id
  intro rd hrd
  have hmem := (List.mem_filter.mp hrd).1
  have hprops := of_decide_eq_true (List.mem_filter.mp hrd).2
  exact hnone rd hmem hprops.1 hprops.2

/-! ## Claim C7: the data-protection predicates -/

/-- Claim C7: IsRDDataProtected is true exactly when the RD's status
latest-image reference is present with a non-empty name and of kind
VolumeSnapshot, and IsRSDataProtected is true exactly when the RS's status
last-sync time is set and non-zero.  Both are pure ClusterState → Bool
functions of observed status: by construction they return no new state and
mutate nothing. -/
theorem data_protection_predicates_C7 :
    ∀ (h : VSHandler) (s : ClusterState) (pvcName : String),
      (IsRDDataProtected h s pvcName = true ↔
        ∃ rd, findByKey rdKey (getReplicationDestinationName pvcName, h.ownerNamespace)
            s.rdList = some rd ∧
          ∃ st, rd.status = some st ∧ ∃ li, st.latestImage = some li ∧
            ¬ li.name = "" ∧ li.kind = VolumeSnapshotKind) ∧
      (IsRSDataProtected h s pvcName = true ↔
        ∃ rs, findByKey rsKey (getReplicationSourceName pvcName, h.ownerNamespace)
            s.rsList = some rs ∧
          ∃ st, rs.status = some st ∧ ∃ t, st.lastSyncTime = some t ∧ ¬ t = 0) := by
  intro h s pvcName
  constructor
  · unfold IsRDDataProtected getRDLatestImage
    cases hfind : findByKey rdKey (getReplicationDestinationName pvcName, h.ownerNamespace)
        s.rdList with
    | none =>
      simp only [isLatestImageReady]
      constructor
      · intro hcontra
        exact absurd hcontra (by decide)
      · rintro ⟨rd, hrd, -⟩
        exact absurd hrd (by simp)
    | some rd =>
      cases hst : rd.status with
      | none =>
        simp only [hst, isLatestImageReady]
        constructor
        · intro hcontra
          exact absurd hcontra (by decide)
        · rintro ⟨rd2, hrd2, st, hst2, -⟩
          obtain rfl : rd = rd2 := Option.some_inj.mp hrd2
          rw [hst] at hst2
          exact absurd hst2 (by simp)
      | some st =>
        cases hli : st.latestImage with
        | none =>
          simp only [hst, hli, isLatestImageReady]
          constructor
          · intro hcontra
            exact absurd hcontra (by decide)
          · rintro ⟨rd2, hrd2, st2, hst2, li, hli2, -⟩
            obtain rfl : rd = rd2 := Option.some_inj.mp hrd2
            rw [hst] at hst2
            obtain rfl : st = st2 := Option.some_inj.mp hst2
            rw [hli] at hli2
            exact absurd hli2 (by simp)
        | some li =>
          simp only [hst, hli, isLatestImageReady, decide_eq_true_eq]
          constructor
          · intro hready
            exact ⟨rd, rfl, st, hst, li, hli, hready⟩
          · rintro ⟨rd2, hrd2, st2, hst2, li2, hli2, hname, hkind⟩
            obtain rfl : rd = rd2 := Option.some_inj.mp hrd2
            rw [hst] at hst2
            obtain rfl : st = st2 := Option.some_inj.mp hst2
            rw [hli] at hli2
            obtain rfl : li = li2 := Option.some_inj.mp hli2
            exact ⟨hname, hkind⟩
  · unfold IsRSDataProtected
    cases hfind : findByKey rsKey (getReplicationSourceName pvcName, h.ownerNamespace)
        s.rsList with
    | none =>
      constructor
      · intro hcontra
        exact absurd hcontra (by decide)
      · rintro ⟨rs, hrs, -⟩
        exact absurd hrs (by simp)
    | some rs =>
      cases hst : rs.status with
      | none =>
        simp only [isRSLastSyncTimeReady, hst]
        constructor
        · intro hcontra
          exact absurd hcontra (by decide)
        · rintro ⟨rs2, hrs2, st, hst2, -⟩
          obtain rfl : rs = rs2 := Option.some_inj.mp hrs2
          rw [hst] at hst2
          exact absurd hst2 (by simp)
      | some st =>
        cases hts : st.lastSyncTime with
        | none =>
          simp only [isRSLastSyncTimeReady, hst, hts]
          constructor
          · intro hcontra
            exact absurd hcontra (by decide)
          · rintro ⟨rs2, hrs2, st2, hst2, t, hts2, -⟩
            obtain rfl : rs = rs2 := Option.some_inj.mp hrs2
            rw [hst] at hst2
            obtain rfl : st = st2 := Option.some_inj.mp hst2
            rw [hts] at hts2
            exact absurd hts2 (by simp)
        | some t =>
          simp only [isRSLastSyncTimeReady, hst, hts, decide_eq_true_eq]
          constructor
          · intro hready
            exact ⟨rs, rfl, st, hst, t, hts, hready⟩
          · rintro ⟨rs2, hrs2, st2, hst2, t2, hts2, ht2⟩
            obtain rfl : rs = rs2 := Option.some_inj.mp hrs2
            rw [hst] at hst2
            obtain rfl : st = st2 := Option.some_inj.mp hst2
            rw [hts] at hts2
            obtain rfl : t = t2 := Option.some_inj.mp hts2
            exact ht2

/-! ## Equation lemmas for the secret validation step -/

theorem validateSecret_not_found (h : VSHandler) (secretName : String) (s : ClusterState)
    (hf : findByKey secretKey (secretName, h.ownerNamespace) s.secrets = none) :
    validateSecretAndAddVRGOwnerRef h secretName s = (false, s) := by
  unfold validateSecretAndAddVRGOwnerRef
  rw [hf]

theorem validateSecret_found (h : VSHandler) (secretName : String) (s : ClusterState)
    (secret : SecretObj)
    (hf : findByKey secretKey (secretName, h.ownerNamespace) s.secrets = some secret) :
    validateSecretAndAddVRGOwnerRef h secretName s =
      (true, { s with secrets := (upsertBy secretKey
        { secret with ownerRefs := insertIfAbsent h.ownerName secret.ownerRefs } s.secrets) }) := by
  unfold validateSecretAndAddVRGOwnerRef
  rw [hf]

/-- getKV after filtering entries by a predicate on keys. -/
theorem getKV_filter_key (q : String → Bool) (m : KVMap) (k : String) :
    getKV (m.filter (fun kv => q kv.1)) k = if q k = true then getKV m k else none := by
  induction m with
  | nil =>
    simp only [List.filter_nil]
    split <;> rfl
  | cons a m ih =>
    rw [List.filter_cons]
    by_cases hk : a.1 = k
    · subst hk
      by_cases hq : q a.1 = true
      · rw [if_pos hq, if_pos hq]
        unfold getKV
        rw [List.find?_cons_of_pos, List.find?_cons_of_pos]
        · exact decide_eq_true rfl
        · exact decide_eq_true rfl
      · rw [if_neg hq, ih, if_neg hq, if_neg hq]
    · by_cases hq : q a.1 = true
      · rw [if_pos hq]
        have hstep : getKV (a :: m.filter (fun kv => q kv.1)) k =
            getKV (m.filter (fun kv => q kv.1)) k := by
          unfold getKV
          rw [List.find?_cons_of_neg]
          simp [hk]
        rw [hstep, ih]
        by_cases hqk : q k = true
        · rw [if_pos hqk, if_pos hqk]
          unfold getKV
          rw [List.find?_cons_of_neg]
          simp [hk]
        · rw [if_neg hqk, if_neg hqk]
      · rw [if_neg hq, ih]
        by_cases hqk : q k = true
        · rw [if_pos hqk, if_pos hqk]
          unfold getKV
          rw [List.find?_cons_of_neg]
          simp [hk]
        · rw [if_neg hqk, if_neg hqk]

/-! ## Shared concrete fixtures for witnesses and counterexamples -/

def exHandler : VSHandler :=
  { ownerName := "vrg-a", ownerNamespace := "ns-a", schedulingInterval := "5m",
    volumeSnapshotClassSelector := [] }

def exSecret : SecretObj := { name := "vrg-a", nspace := "ns-a", ownerRefs := [] }

def exStorageClass : StorageClassObj := { name := "sc-a", provisioner := "prov-a" }

def exSnapClass : VolumeSnapshotClassObj :=
  { name := "vsc-a", driver := "prov-a", labels := [], annots := [] }

def exSnapRef : TypedLocalObjectReference :=
  { apiGroup := some "snapshot.storage.k8s.io", kind := "VolumeSnapshot", name := "snap-1" }

def exSnapRefB : TypedLocalObjectReference :=
  { apiGroup := some "snapshot.storage.k8s.io", kind := "VolumeSnapshot", name := "snap-2" }

def exProtectedPVC : ProtectedPVCData :=
  { name := "pvc-1", protectedByVolSync := true, storageClassName := some "sc-a",
    accessModes := ["ReadWriteOnce"], resources := "2Gi", labels := [] }

def exRDSpec : VolSyncReplicationDestinationSpec := { protectedPVC := exProtectedPVC }

def exRSSpec : VolSyncReplicationSourceSpec := { protectedPVC := exProtectedPVC }

def exDisabledRDSpec : VolSyncReplicationDestinationSpec :=
  { protectedPVC := { exProtectedPVC with protectedByVolSync := false } }

def exDisabledRSSpec : VolSyncReplicationSourceSpec :=
  { protectedPVC := { exProtectedPVC with protectedByVolSync := false } }

def exEmptyState : ClusterState :=
  { secrets := [], rsList := [], rdList := [], pvcs := [], pods := [],
    storageClasses := [], snapClasses := [], serviceExports := [] }

/-- Secret and matching storage / snapshot classes present; nothing else. -/
def exBaseState : ClusterState :=
  { secrets := [exSecret], rsList := [], rdList := [], pvcs := [], pods := [],
    storageClasses := [exStorageClass], snapClasses := [exSnapClass], serviceExports := [] }

/-! ## Claim C5: missing transport secret is a soft not-ready signal -/

/-- Counterexample to claim C5 as stated: a call whose descriptor is not
volsync-enabled, with the transport secret absent from the cluster, makes
ReconcileRD return a non-nil error rather than (nil, nil). -/
theorem missing_secret_C5_counterexample :
    findByKey secretKey (GetVolSyncSSHSecretNameFromVRGName exHandler.ownerName,
      exHandler.ownerNamespace) exEmptyState.secrets = none ∧
    (ReconcileRD exHandler exDisabledRDSpec exEmptyState).1 =
      .error "protectedPVC pvc-1 is not VolSync Enabled" :=
  ⟨rfl, rfl⟩

/-- Claim C5 (amended): for every call with a volsync-enabled descriptor
where the shared transport secret named after the Owner does not exist,
ReconcileRD returns (nil, nil) and ReconcileRS returns (false, nil, nil),
with nil error and the state unchanged (so no RD/RS create or update). -/
theorem missing_secret_soft_signal_C5 :
    ∀ (h : VSHandler) (s : ClusterState) (rdSpec : VolSyncReplicationDestinationSpec)
      (rsSpec : VolSyncReplicationSourceSpec) (runFinalSync : Bool),
      findByKey secretKey (GetVolSyncSSHSecretNameFromVRGName h.ownerName, h.ownerNamespace)
        s.secrets = none →
      (rdSpec.protectedPVC.protectedByVolSync = true →
        ReconcileRD h rdSpec s = (.ok none, s)) ∧
      (rsSpec.protectedPVC.protectedByVolSync = true →
        ReconcileRS h rsSpec runFinalSync s = (.ok (false, none), s)) := by
  intro h s rdSpec rsSpec runFinalSync hsec
  have hv := validateSecret_not_found h (GetVolSyncSSHSecretNameFromVRGName h.ownerName) s hsec
  constructor
  · intro henabled
    simp only [ReconcileRD, henabled, hv]
  · intro henabled
    simp only [ReconcileRS, henabled, hv]

/-- Witness for the amended C5 on a concrete secretless state. -/
theorem missing_secret_soft_signal_C5_witness :
    ReconcileRD exHandler exRDSpec exEmptyState = (.ok none, exEmptyState) ∧
    ReconcileRS exHandler exRSSpec true exEmptyState = (.ok (false, none), exEmptyState) :=
  ⟨(missing_secret_soft_signal_C5 exHandler exEmptyState exRDSpec exRSSpec true rfl).1 rfl,
   (missing_secret_soft_signal_C5 exHandler exEmptyState exRDSpec exRSSpec true rfl).2 rfl⟩

/-! ## Claim C3: immutable-field replace during materialization -/

/-- Claim C3: when a claim of the target name exists whose data-source
reference (kind, name) differs from the desired snapshot reference, the
claim is deleted and the call fails with the distinguished
recreation-required error, with no in-place patch; a subsequent call with
no existing claim succeeds and creates a claim whose data source is the
desired snapshot. -/
theorem immutable_replace_C3 :
    ∀ (h : VSHandler) (rdSpec : VolSyncReplicationDestinationSpec)
      (snapshotRef : TypedLocalObjectReference) (s : ClusterState),
      (∀ pvc, getPVC h s rdSpec.protectedPVC.name = some pvc →
        objectRefMatches pvc.dataSource (some snapshotRef) = false →
        ensurePVCFromSnapshot h rdSpec snapshotRef s =
          (.error ("pvc has incorrect datasource, will need to delete and recreate, pvc: "
              ++ rdSpec.protectedPVC.name),
            deletePVC h rdSpec.protectedPVC.name s) ∧
        getPVC h (ensurePVCFromSnapshot h rdSpec snapshotRef s).2
          rdSpec.protectedPVC.name = none) ∧
      (getPVC h s rdSpec.protectedPVC.name = none →
        ∃ pvcNew, ensurePVCFromSnapshot h rdSpec snapshotRef s =
            (.ok pvcNew, { s with pvcs := upsertBy pvcKey pvcNew s.pvcs }) ∧
          pvcNew.dataSource = some snapshotRef ∧
          getPVC h (ensurePVCFromSnapshot h rdSpec snapshotRef s).2
            rdSpec.protectedPVC.name = some pvcNew) := by
  intro h rdSpec snapshotRef s
  constructor
  · intro pvc hfound hmis
    have hcall : ensurePVCFromSnapshot h rdSpec snapshotRef s =
        (.error ("pvc has incorrect datasource, will need to delete and recreate, pvc: "
            ++ rdSpec.protectedPVC.name),
          deletePVC h rdSpec.protectedPVC.name s) := by
      unfold ensurePVCFromSnapshot
      simp only [hfound]
      rw [if_pos hmis]
      rfl
    refine ⟨hcall, ?_⟩
    rw [hcall]
    exact findByKey_removeByKey_self pvcKey _ s.pvcs
  · intro hnone
    have hcall : ensurePVCFromSnapshot h rdSpec snapshotRef s =
        (.ok (ensurePVCMutation rdSpec snapshotRef
            (newPVCStub rdSpec.protectedPVC.name h.ownerNamespace) true),
          { s with pvcs := upsertBy pvcKey (ensurePVCMutation rdSpec snapshotRef
            (newPVCStub rdSpec.protectedPVC.name h.ownerNamespace) true) s.pvcs }) := by
      unfold ensurePVCFromSnapshot
      simp only [hnone]
      rfl
    refine ⟨_, hcall, rfl, ?_⟩
    rw [hcall]
    exact findByKey_upsertBy_self pvcKey _ s.pvcs

/-- A claim bound to snapshot A (exSnapRef). -/
def exPVCBound : PVCObj :=
  { name := "pvc-1", nspace := "ns-a", labels := [], annots := [], ownerRefs := [],
    accessModes := ["ReadWriteOnce"], storageClassName := some "sc-a",
    dataSource := some exSnapRef, resources := "1Gi", phase := "Bound" }

/-- An unbound claim sourced from exSnapRef. -/
def exPVCUnbound : PVCObj :=
  { name := "pvc-1", nspace := "ns-a", labels := [], annots := [], ownerRefs := [],
    accessModes := ["ReadWriteOnce"], storageClassName := some "sc-a",
    dataSource := some exSnapRef, resources := "1Gi", phase := "Pending" }

def exStateBoundPVC : ClusterState := { exBaseState with pvcs := [exPVCBound] }

def exStateUnboundPVC : ClusterState := { exBaseState with pvcs := [exPVCUnbound] }

/-- Witness for C3: the bound claim sourced from snapshot A is deleted with
a recreation error when snapshot B is requested, and a call against the
empty state creates a claim sourced from B. -/
theorem immutable_replace_C3_witness :
    (ensurePVCFromSnapshot exHandler exRDSpec exSnapRefB exStateBoundPVC =
      (.error "pvc has incorrect datasource, will need to delete and recreate, pvc: pvc-1",
        deletePVC exHandler "pvc-1" exStateBoundPVC) ∧
     getPVC exHandler (ensurePVCFromSnapshot exHandler exRDSpec exSnapRefB exStateBoundPVC).2
        "pvc-1" = none) ∧
    (∃ pvcNew, ensurePVCFromSnapshot exHandler exRDSpec exSnapRefB exEmptyState =
        (.ok pvcNew, { exEmptyState with pvcs := upsertBy pvcKey pvcNew exEmptyState.pvcs }) ∧
      pvcNew.dataSource = some exSnapRefB ∧
      getPVC exHandler (ensurePVCFromSnapshot exHandler exRDSpec exSnapRefB exEmptyState).2
        "pvc-1" = some pvcNew) :=
  ⟨(immutable_replace_C3 exHandler exRDSpec exSnapRefB exStateBoundPVC).1 exPVCBound rfl rfl,
   (immutable_replace_C3 exHandler exRDSpec exSnapRefB exEmptyState).2 rfl⟩

/-! ## Claim C6: capacity re-application during materialization -/

/-- Counterexample to claim C6 as stated: for a call where the claim exists
and is already bound, the mutation function returns before re-applying the
resource requests, so the stored claim keeps its old capacity instead of the
descriptor's. -/
theorem capacity_reapply_C6_counterexample :
    exRDSpec.protectedPVC.resources = "2Gi" ∧
    getPVC exHandler exStateBoundPVC "pvc-1" = some exPVCBound ∧
    exPVCBound.phase = ClaimBound ∧
    objectRefMatches exPVCBound.dataSource (some exSnapRef) = true ∧
    getPVC exHandler (ensurePVCFromSnapshot exHandler exRDSpec exSnapRef exStateBoundPVC).2
      "pvc-1" = some exPVCBound ∧
    ¬ exPVCBound.resources = exRDSpec.protectedPVC.resources :=
  ⟨rfl, rfl, rfl, rfl, rfl, by decide⟩

/-- Claim C6 (amended): the capacity/resource requests are re-applied from
the descriptor on creation and on every call where the existing claim has
the desired data source and is not yet bound; the already-bound branch
stores the claim unchanged (no re-application), and the data-source-mismatch
branch deletes the claim instead. -/
theorem capacity_reapply_amended_C6 :
    ∀ (h : VSHandler) (rdSpec : VolSyncReplicationDestinationSpec)
      (snapshotRef : TypedLocalObjectReference) (s : ClusterState),
      (getPVC h s rdSpec.protectedPVC.name = none →
        ∃ stored, getPVC h (ensurePVCFromSnapshot h rdSpec snapshotRef s).2
            rdSpec.protectedPVC.name = some stored ∧
          stored.resources = rdSpec.protectedPVC.resources) ∧
      (∀ pvc, getPVC h s rdSpec.protectedPVC.name = some pvc →
        objectRefMatches pvc.dataSource (some snapshotRef) = true →
        ¬ pvc.phase = ClaimBound →
        ∃ stored, getPVC h (ensurePVCFromSnapshot h rdSpec snapshotRef s).2
            rdSpec.protectedPVC.name = some stored ∧
          stored.resources = rdSpec.protectedPVC.resources) ∧
      (∀ pvc, getPVC h s rdSpec.protectedPVC.name = some pvc →
        objectRefMatches pvc.dataSource (some snapshotRef) = true →
        pvc.phase = ClaimBound →
        ensurePVCFromSnapshot h rdSpec snapshotRef s =
          (.ok pvc, { s with pvcs := upsertBy pvcKey pvc s.pvcs }) ∧
        getPVC h (ensurePVCFromSnapshot h rdSpec snapshotRef s).2
          rdSpec.protectedPVC.name = some pvc) := by
  intro h rdSpec snapshotRef s
  refine ⟨?_, ?_, ?_⟩
  · intro hnone
    have hcall : ensurePVCFromSnapshot h rdSpec snapshotRef s =
        (.ok (ensurePVCMutation rdSpec snapshotRef
            (newPVCStub rdSpec.protectedPVC.name h.ownerNamespace) true),
          { s with pvcs := (upsertBy pvcKey (ensurePVCMutation rdSpec snapshotRef
            (newPVCStub rdSpec.protectedPVC.name h.ownerNamespace) true) s.pvcs) }) := by
      unfold ensurePVCFromSnapshot
      simp only [hnone]
      rfl
    refine ⟨ensurePVCMutation rdSpec snapshotRef
      (newPVCStub rdSpec.protectedPVC.name h.ownerNamespace) true, ?_, rfl⟩
    rw [hcall]
    exact findByKey_upsertBy_self pvcKey _ s.pvcs
  · intro pvc hfound hmatch hnotbound
    have hk : pvcKey pvc = (rdSpec.protectedPVC.name, h.ownerNamespace) :=
      findByKey_eq_some_key pvcKey _ s.pvcs pvc hfound
    have hcall : ensurePVCFromSnapshot h rdSpec snapshotRef s =
        (.ok (ensurePVCMutation rdSpec snapshotRef pvc false),
          { s with pvcs := (upsertBy pvcKey
            (ensurePVCMutation rdSpec snapshotRef pvc false) s.pvcs) }) := by
      unfold ensurePVCFromSnapshot
      simp only [hfound, hmatch]
      rw [if_neg (by decide : ¬ (true = false))]
      rw [if_neg hnotbound]
      rfl
    refine ⟨ensurePVCMutation rdSpec snapshotRef pvc false, ?_, rfl⟩
    rw [hcall]
    show findByKey pvcKey (rdSpec.protectedPVC.name, h.ownerNamespace) _ = _
    rw [← hk]
    exact findByKey_upsertBy_self pvcKey _ s.pvcs
  · intro pvc hfound hmatch hbound
    have hk : pvcKey pvc = (rdSpec.protectedPVC.name, h.ownerNamespace) :=
      findByKey_eq_some_key pvcKey _ s.pvcs pvc hfound
    have hcall : ensurePVCFromSnapshot h rdSpec snapshotRef s =
        (.ok pvc, { s with pvcs := upsertBy pvcKey pvc s.pvcs }) := by
      unfold ensurePVCFromSnapshot
      simp only [hfound, hmatch]
      rw [if_neg (by decide : ¬ (true = false))]
      rw [if_pos hbound]
    refine ⟨hcall, ?_⟩
    rw [hcall]
    show findByKey pvcKey (rdSpec.protectedPVC.name, h.ownerNamespace) _ = _
    rw [← hk]
    exact findByKey_upsertBy_self pvcKey _ s.pvcs

/-- Witness for the amended C6: on creation and on an unbound matching claim
the stored capacity equals the descriptor's; on the bound claim the object
is stored unchanged. -/
theorem capacity_reapply_amended_C6_witness :
    (∃ stored, getPVC exHandler
        (ensurePVCFromSnapshot exHandler exRDSpec exSnapRef exEmptyState).2 "pvc-1"
          = some stored ∧ stored.resources = "2Gi") ∧
    (∃ stored, getPVC exHandler
        (ensurePVCFromSnapshot exHandler exRDSpec exSnapRef exStateUnboundPVC).2 "pvc-1"
          = some stored ∧ stored.resources = "2Gi") ∧
    ensurePVCFromSnapshot exHandler exRDSpec exSnapRef exStateBoundPVC =
      (.ok exPVCBound, { exStateBoundPVC with
        pvcs := upsertBy pvcKey exPVCBound exStateBoundPVC.pvcs }) :=
  ⟨(capacity_reapply_amended_C6 exHandler exRDSpec exSnapRef exEmptyState).1 rfl,
   (capacity_reapply_amended_C6 exHandler exRDSpec exSnapRef exStateUnboundPVC).2.1
      exPVCUnbound rfl rfl (by decide),
   ((capacity_reapply_amended_C6 exHandler exRDSpec exSnapRef exStateBoundPVC).2.2
      exPVCBound rfl rfl rfl).1⟩

/-! ## Claim C8: ownership-transfer gating -/

/-- Claim C8: PreparePVCForFinalSync fails when the claim does not exist;
returns (false, nil) whenever the claim carries the ACM reconcile-option
key with a value other than "merge"; and otherwise returns (true, nil)
after removing every entry whose key has the apps.open-cluster-management.io
name-space while preserving all other entries. -/
theorem ownership_transfer_gating_C8 :
    ∀ (h : VSHandler) (s : ClusterState) (pvcName : String),
      (getPVC h s pvcName = none →
        ∃ e, (PreparePVCForFinalSync h pvcName s).1 = .error e) ∧
      (∀ pvc, getPVC h s pvcName = some pvc →
        ∀ v, getKV pvc.annots ACMReconcileOptionKey = some v → ¬ v = "merge" →
        (PreparePVCForFinalSync h pvcName s).1 = .ok false) ∧
      (∀ pvc, getPVC h s pvcName = some pvc →
        (getKV pvc.annots ACMReconcileOptionKey = none ∨
          getKV pvc.annots ACMReconcileOptionKey = some "merge") →
        (PreparePVCForFinalSync h pvcName s).1 = .ok true ∧
        ∃ stored, getPVC h (PreparePVCForFinalSync h pvcName s).2 pvcName = some stored ∧
          (∀ k, k.startsWith ACMKeySpace = true → getKV stored.annots k = none) ∧
          (∀ k, k.startsWith ACMKeySpace = false →
            getKV stored.annots k = getKV pvc.annots k)) := by
  intro h s pvcName
  refine ⟨?_, ?_, ?_⟩
  · intro hnone
    refine ⟨"error getting pvc " ++ pvcName, ?_⟩
    unfold PreparePVCForFinalSync validatePVCAndAddVRGOwnerRef
    simp only [hnone]
  · intro pvc hfound v hv hvne
    unfold PreparePVCForFinalSync validatePVCAndAddVRGOwnerRef
    simp only [hfound, hv]
    rw [decide_eq_true hvne]
  · intro pvc hfound hopt
    have hk : pvcKey pvc = (pvcName, h.ownerNamespace) :=
      findByKey_eq_some_key pvcKey _ s.pvcs pvc hfound
    have hwait :
        (match getKV pvc.annots ACMReconcileOptionKey with
          | some reconcileOption => decide (¬ reconcileOption = "merge")
          | none => false) = false := by
      rcases hopt with hnone | hmerge
      · rw [hnone]
      · rw [hmerge]
        simp
    unfold PreparePVCForFinalSync validatePVCAndAddVRGOwnerRef
    simp only [hfound, hwait]
    constructor
    · trivial
    · refine ⟨{ pvc with
          labels := (addLabelGo pvc.labels ACMAppSubDoNotDeleteLabel
            ACMAppSubDoNotDeleteLabelVal).1,
          ownerRefs := insertIfAbsent h.ownerName pvc.ownerRefs,
          annots := pvc.annots.filter (fun kv => ! kv.1.startsWith ACMKeySpace) },
        ?_, ?_, ?_⟩
      · show findByKey pvcKey (pvcName, h.ownerNamespace) _ = _
        rw [← hk]
        exact findByKey_upsertBy_self pvcKey _ _
      · intro k hks
        show getKV (pvc.annots.filter (fun kv => ! kv.1.startsWith ACMKeySpace)) k = none
        rw [getKV_filter_key (fun key => ! key.startsWith ACMKeySpace) pvc.annots k]
        rw [if_neg (by rw [hks]; decide)]
      · intro k hks
        show getKV (pvc.annots.filter (fun kv => ! kv.1.startsWith ACMKeySpace)) k
          = getKV pvc.annots k
        rw [getKV_filter_key (fun key => ! key.startsWith ACMKeySpace) pvc.annots k]
        rw [if_pos (by rw [hks]; decide)]

def exPVCAnnotHold : PVCObj :=
  { exPVCBound with annots :=
      [("apps.open-cluster-management.io/reconcile-option", "mergeAndOwn"),
       ("keepme", "v1")] }

def exPVCAnnotMerge : PVCObj :=
  { exPVCBound with annots :=
      [("apps.open-cluster-management.io/reconcile-option", "merge"),
       ("apps.open-cluster-management.io/hosting-subscription", "sub1"),
       ("keepme", "v1")] }

def exStateAnnotHold : ClusterState := { exBaseState with pvcs := [exPVCAnnotHold] }

def exStateAnnotMerge : ClusterState := { exBaseState with pvcs := [exPVCAnnotMerge] }

/-- Witness for C8: a missing claim errors; a "mergeAndOwn" annotation keeps
the call at (false, nil); a "merge" annotation lets the call strip the ACM
entries and keep the rest. -/
theorem ownership_transfer_gating_C8_witness :
    (∃ e, (PreparePVCForFinalSync exHandler "pvc-1" exEmptyState).1 = .error e) ∧
    (PreparePVCForFinalSync exHandler "pvc-1" exStateAnnotHold).1 = .ok false ∧
    ((PreparePVCForFinalSync exHandler "pvc-1" exStateAnnotMerge).1 = .ok true ∧
      ∃ stored, getPVC exHandler (PreparePVCForFinalSync exHandler "pvc-1"
          exStateAnnotMerge).2 "pvc-1" = some stored ∧
        (∀ k, k.startsWith ACMKeySpace = true → getKV stored.annots k = none) ∧
        (∀ k, k.startsWith ACMKeySpace = false →
          getKV stored.annots k = getKV exPVCAnnotMerge.annots k)) :=
  ⟨(ownership_transfer_gating_C8 exHandler exEmptyState "pvc-1").1 rfl,
   (ownership_transfer_gating_C8 exHandler exStateAnnotHold "pvc-1").2.1
      exPVCAnnotHold rfl "mergeAndOwn" rfl (by decide),
   (ownership_transfer_gating_C8 exHandler exStateAnnotMerge "pvc-1").2.2
      exPVCAnnotMerge rfl (Or.inr rfl)⟩

/-! ## Congruence lemmas (steps that do not touch the read fields) -/

theorem pvcExistsAndInUse_congr (h : VSHandler) (s1 s2 : ClusterState) (p : String)
    (hp : s1.pvcs = s2.pvcs) (hq : s1.pods = s2.pods) :
    pvcExistsAndInUse h s1 p = pvcExistsAndInUse h s2 p := by
  unfold pvcExistsAndInUse getPVC isPvcInUse
  rw [hp, hq]

theorem getVSC_congr (h : VSHandler) (s1 s2 : ClusterState) (scn : Option String)
    (hsc : s1.storageClasses = s2.storageClasses) (hvsc : s1.snapClasses = s2.snapClasses) :
    GetVolumeSnapshotClassFromPVCStorageClass h s1 scn =
      GetVolumeSnapshotClassFromPVCStorageClass h s2 scn := by
  unfold GetVolumeSnapshotClassFromPVCStorageClass GetVolumeSnapshotClasses
  rw [hsc, hvsc]

/-! ## Run lemmas: symbolic execution of ReconcileRS -/

/-- createOrUpdateRS on explicit sub-results. -/
theorem createOrUpdateRS_ok_eq (h : VSHandler) (rsSpec : VolSyncReplicationSourceSpec)
    (sshName : String) (runFinalSync : Bool) (s : ClusterState) (vscName : String)
    (base : RSObj) (cref : Option String) (trig : ReplicationSourceTriggerSpec)
    (hvsc : GetVolumeSnapshotClassFromPVCStorageClass h s
      rsSpec.protectedPVC.storageClassName = .ok vscName)
    (hbase : (findByKey rsKey (getReplicationSourceName rsSpec.protectedPVC.name,
        h.ownerNamespace) s.rsList).getD
      (newRSStub (getReplicationSourceName rsSpec.protectedPVC.name) h.ownerNamespace) = base)
    (hctrl : setControllerReferenceGo h.ownerName base.controllerRef = .ok cref)
    (htrig : rsTrigger h runFinalSync = .ok trig) :
    createOrUpdateRS h rsSpec sshName runFinalSync s =
      .ok (rsMutation h rsSpec sshName vscName trig cref base,
        { s with rsList := (upsertBy rsKey
          (rsMutation h rsSpec sshName vscName trig cref base) s.rsList) }) := by
  unfold createOrUpdateRS
  simp only [hvsc, hbase, hctrl, htrig]

/-- ReconcileRS when the final-sync in-use gate stops the call. -/
theorem reconcileRS_wait_inuse (h : VSHandler) (rsSpec : VolSyncReplicationSourceSpec)
    (s s1 s2 : ClusterState) (secret : SecretObj)
    (henabled : rsSpec.protectedPVC.protectedByVolSync = true)
    (hsec : findByKey secretKey (GetVolSyncSSHSecretNameFromVRGName h.ownerName,
      h.ownerNamespace) s.secrets = some secret)
    (hs1 : s1 = { s with secrets := (upsertBy secretKey
      { secret with ownerRefs := insertIfAbsent h.ownerName secret.ownerRefs } s.secrets) })
    (hs2 : s2 = DeleteRD h rsSpec.protectedPVC.name s1)
    (hval : validatePVCBeforeFinalSync h rsSpec.protectedPVC.name true s2 = false) :
    ReconcileRS h rsSpec true s = (.ok (false, none), s2) := by
  subst hs1
  subst hs2
  unfold ReconcileRS
  simp only [henabled, validateSecret_found h _ s secret hsec, hval]

/-- ReconcileRS through a successful create-or-update of the RS. -/
theorem reconcileRS_run (h : VSHandler) (rsSpec : VolSyncReplicationSourceSpec)
    (runFinalSync : Bool) (s s1 s2 : ClusterState) (secret : SecretObj) (rsF : RSObj)
    (henabled : rsSpec.protectedPVC.protectedByVolSync = true)
    (hsec : findByKey secretKey (GetVolSyncSSHSecretNameFromVRGName h.ownerName,
      h.ownerNamespace) s.secrets = some secret)
    (hs1 : s1 = { s with secrets := (upsertBy secretKey
      { secret with ownerRefs := insertIfAbsent h.ownerName secret.ownerRefs } s.secrets) })
    (hs2 : s2 = DeleteRD h rsSpec.protectedPVC.name s1)
    (hval : validatePVCBeforeFinalSync h rsSpec.protectedPVC.name runFinalSync s2 = true)
    (hcou : createOrUpdateRS h rsSpec (GetVolSyncSSHSecretNameFromVRGName h.ownerName)
      runFinalSync s2 = .ok (rsF, { s2 with rsList := (upsertBy rsKey rsF s2.rsList) })) :
    ReconcileRS h rsSpec runFinalSync s =
      (match isRSLastSyncTimeReady rsF.status with
       | false => (.ok (false, none), { s2 with rsList := (upsertBy rsKey rsF s2.rsList) })
       | true =>
         if runFinalSync = true ∧ isFinalSyncComplete rsF = true then
           (.ok (true, some rsF),
             cleanupAfterRSFinalSync h rsSpec { s2 with rsList := (upsertBy rsKey rsF s2.rsList) })
         else (.ok (false, some rsF), { s2 with rsList := (upsertBy rsKey rsF s2.rsList) }))
    := by
  subst hs1
  subst hs2
  unfold ReconcileRS
  simp only [henabled, validateSecret_found h _ s secret hsec, hval, hcou]

/-! ## Claim C2: the final-sync protocol of ReconcileRS -/

/-- validatePVCBeforeFinalSync with runFinalSync is the negated in-use check. -/
theorem validatePVC_finalSync_eq (h : VSHandler) (p : String) (s : ClusterState) :
    validatePVCBeforeFinalSync h p true s = ! pvcExistsAndInUse h s p := rfl

def exPod : PodObj := { name := "pod-1", nspace := "ns-a", pvcClaimNames := ["pvc-1"] }

def exStateInUse : ClusterState :=
  { exBaseState with pvcs := [exPVCBound], pods := [exPod] }

def exRSSpecData0 : ReplicationSourceSpecData :=
  { sourcePVC := "pvc-1", trigger := none, sshKeys := none, address := none,
    copyMethod := "", volumeSnapshotClassName := none }

/-- An owned RS whose status echoes the final-sync token but has no last
sync time. -/
def exRSEchoNoSync : RSObj :=
  { name := "pvc-1", nspace := "ns-a", labels := [(VRGOwnerLabel, "vrg-a")],
    controllerRef := some "vrg-a", spec := exRSSpecData0,
    status := some { lastManualSync := FinalSyncTriggerString, lastSyncTime := none } }

def exStateEchoNoSync : ClusterState := { exBaseState with rsList := [exRSEchoNoSync] }

/-- An owned RS whose status echoes the final-sync token with a sync done. -/
def exRSDone : RSObj :=
  { exRSEchoNoSync with
    status := some { lastManualSync := FinalSyncTriggerString, lastSyncTime := some 1 } }

def exStateDone : ClusterState :=
  { exBaseState with rsList := [exRSDone], pvcs := [exPVCBound] }

/-- Counterexample to claim C2 as stated: (a) a call with a descriptor that
is not volsync-enabled, while the claim is mounted, errors instead of
returning (false, nil, nil); (b) a call whose RS status echoes the
final-sync token but carries no last-sync time returns (false, nil, nil),
not (true, endpoint, nil). -/
theorem final_sync_C2_counterexample :
    (pvcExistsAndInUse exHandler exStateInUse "pvc-1" = true ∧
      (ReconcileRS exHandler exDisabledRSSpec true exStateInUse).1 =
        .error "protectedPVC pvc-1 is not VolSync Enabled") ∧
    ((findByKey rsKey ("pvc-1", "ns-a") exStateEchoNoSync.rsList).map RSObj.status =
        some (some { lastManualSync := FinalSyncTriggerString, lastSyncTime := none }) ∧
      (ReconcileRS exHandler exRSSpec true exStateEchoNoSync).1 = .ok (false, none)) :=
  ⟨⟨rfl, rfl⟩, ⟨rfl, rfl⟩⟩

/-- Claim C2 (amended): for ReconcileRS(rsSpec, runFinalSync=true) with a
volsync-enabled descriptor: (1) if the protected claim exists and is mounted
by a pod the call returns (false, nil, nil) without creating or updating the
RS; (2) with the transport secret present and the claim not in use, the RS
is created or updated with its trigger set to the fixed manual final-sync
token; (3) additionally, once the RS status's last-manual-sync echo equals
the token AND its last-sync time is set and non-zero, the call returns
(true, endpoint, nil) with a non-nil endpoint and the protected claim has
been deleted. -/
theorem final_sync_protocol_amended_C2 :
    ∀ (h : VSHandler) (rsSpec : VolSyncReplicationSourceSpec) (s : ClusterState),
      rsSpec.protectedPVC.protectedByVolSync = true →
      (pvcExistsAndInUse h s rsSpec.protectedPVC.name = true →
        (ReconcileRS h rsSpec true s).1 = .ok (false, none) ∧
        (ReconcileRS h rsSpec true s).2.rsList = s.rsList) ∧
      (∀ secret, findByKey secretKey (GetVolSyncSSHSecretNameFromVRGName h.ownerName,
          h.ownerNamespace) s.secrets = some secret →
        pvcExistsAndInUse h s rsSpec.protectedPVC.name = false →
        ∀ vscName, GetVolumeSnapshotClassFromPVCStorageClass h s
            rsSpec.protectedPVC.storageClassName = .ok vscName →
        (∀ rs0, findByKey rsKey (getReplicationSourceName rsSpec.protectedPVC.name,
            h.ownerNamespace) s.rsList = some rs0 →
          setControllerReferenceGo h.ownerName rs0.controllerRef = .ok (some h.ownerName)) →
        (∃ rsF, findByKey rsKey (getReplicationSourceName rsSpec.protectedPVC.name,
              h.ownerNamespace) (ReconcileRS h rsSpec true s).2.rsList = some rsF ∧
            rsF.spec.trigger = some { schedule := none, manual := FinalSyncTriggerString }) ∧
        (∀ rs0 st t, findByKey rsKey (getReplicationSourceName rsSpec.protectedPVC.name,
              h.ownerNamespace) s.rsList = some rs0 →
          rs0.status = some st → st.lastManualSync = FinalSyncTriggerString →
          st.lastSyncTime = some t → ¬ t = 0 →
          (∃ rsF, (ReconcileRS h rsSpec true s).1 = .ok (true, some rsF)) ∧
          getPVC h (ReconcileRS h rsSpec true s).2 rsSpec.protectedPVC.name = none)) := by
  intro h rsSpec s henabled
  constructor
  · intro hInUse
    cases hfs : findByKey secretKey (GetVolSyncSSHSecretNameFromVRGName h.ownerName,
        h.ownerNamespace) s.secrets with
    | none =>
      have hrun : ReconcileRS h rsSpec true s = (.ok (false, none), s) := by
        unfold ReconcileRS
        simp only [henabled, validateSecret_not_found h _ s hfs]
      rw [hrun]
      exact ⟨rfl, rfl⟩
    | some secret =>
      set s1 : ClusterState := { s with secrets := (upsertBy secretKey
        { secret with ownerRefs := insertIfAbsent h.ownerName secret.ownerRefs }
        s.secrets) } with hs1def
      set s2 : ClusterState := DeleteRD h rsSpec.protectedPVC.name s1 with hs2def
      have hs2pvcs : s2.pvcs = s.pvcs := by
        rw [hs2def, DeleteRD_pvcs, hs1def]
      have hs2pods : s2.pods = s.pods := by
        rw [hs2def, DeleteRD_pods, hs1def]
      have hval : validatePVCBeforeFinalSync h rsSpec.protectedPVC.name true s2 = false := by
        rw [validatePVC_finalSync_eq,
          pvcExistsAndInUse_congr h s2 s rsSpec.protectedPVC.name hs2pvcs hs2pods, hInUse]
        rfl
      have hrun := reconcileRS_wait_inuse h rsSpec s s1 s2 secret henabled hfs hs1def
        hs2def hval
      rw [hrun]
      refine ⟨rfl, ?_⟩
      rw [hs2def, DeleteRD_rsList, hs1def]
  · intro secret hfs hnotuse vscName hvsc hctrl
    set s1 : ClusterState := { s with secrets := (upsertBy secretKey
      { secret with ownerRefs := insertIfAbsent h.ownerName secret.ownerRefs }
      s.secrets) } with hs1def
    set s2 : ClusterState := DeleteRD h rsSpec.protectedPVC.name s1 with hs2def
    have hs2pvcs : s2.pvcs = s.pvcs := by
      rw [hs2def, DeleteRD_pvcs, hs1def]
    have hs2pods : s2.pods = s.pods := by
      rw [hs2def, DeleteRD_pods, hs1def]
    have hs2rs : s2.rsList = s.rsList := by
      rw [hs2def, DeleteRD_rsList, hs1def]
    have hs2sc : s2.storageClasses = s.storageClasses := by
      rw [hs2def, DeleteRD_storageClasses, hs1def]
    have hs2snap : s2.snapClasses = s.snapClasses := by
      rw [hs2def, DeleteRD_snapClasses, hs1def]
    have hval : validatePVCBeforeFinalSync h rsSpec.protectedPVC.name true s2 = true := by
      rw [validatePVC_finalSync_eq,
        pvcExistsAndInUse_congr h s2 s rsSpec.protectedPVC.name hs2pvcs hs2pods, hnotuse]
      rfl
    have hvsc2 : GetVolumeSnapshotClassFromPVCStorageClass h s2
        rsSpec.protectedPVC.storageClassName = .ok vscName := by
      rw [getVSC_congr h s2 s rsSpec.protectedPVC.storageClassName hs2sc hs2snap]
      exact hvsc
    cases hfind : findByKey rsKey (getReplicationSourceName rsSpec.protectedPVC.name,
        h.ownerNamespace) s.rsList with
    | none =>
      have hbase : (findByKey rsKey (getReplicationSourceName rsSpec.protectedPVC.name,
          h.ownerNamespace) s2.rsList).getD
          (newRSStub (getReplicationSourceName rsSpec.protectedPVC.name) h.ownerNamespace)
          = newRSStub (getReplicationSourceName rsSpec.protectedPVC.name) h.ownerNamespace := by
        rw [hs2rs, hfind]
        rfl
      have hcou := createOrUpdateRS_ok_eq h rsSpec
        (GetVolSyncSSHSecretNameFromVRGName h.ownerName) true s2 vscName
        (newRSStub (getReplicationSourceName rsSpec.protectedPVC.name) h.ownerNamespace)
        (some h.ownerName) { schedule := none, manual := FinalSyncTriggerString }
        hvsc2 hbase rfl rfl
      have hrun := reconcileRS_run h rsSpec true s s1 s2 secret _ henabled hfs hs1def
        hs2def hval hcou
      constructor
      · refine ⟨rsMutation h rsSpec (GetVolSyncSSHSecretNameFromVRGName h.ownerName)
          vscName { schedule := none, manual := FinalSyncTriggerString } (some h.ownerName)
          (newRSStub (getReplicationSourceName rsSpec.protectedPVC.name) h.ownerNamespace),
          ?_, rfl⟩
        rw [hrun]
        exact findByKey_upsertBy_self rsKey _ s2.rsList
      · intro rs0 st t hrs0 hst hecho hts htnz
        exact absurd hrs0 (by simp)
    | some rs0 =>
      have hctrl0 := hctrl rs0 hfind
      have hbase : (findByKey rsKey (getReplicationSourceName rsSpec.protectedPVC.name,
          h.ownerNamespace) s2.rsList).getD
          (newRSStub (getReplicationSourceName rsSpec.protectedPVC.name) h.ownerNamespace)
          = rs0 := by
        rw [hs2rs, hfind]
        rfl
      have hcou := createOrUpdateRS_ok_eq h rsSpec
        (GetVolSyncSSHSecretNameFromVRGName h.ownerName) true s2 vscName rs0
        (some h.ownerName) { schedule := none, manual := FinalSyncTriggerString }
        hvsc2 hbase hctrl0 rfl
      have hrun := reconcileRS_run h rsSpec true s s1 s2 secret _ henabled hfs hs1def
        hs2def hval hcou
      have hk0 : rsKey rs0 = (getReplicationSourceName rsSpec.protectedPVC.name,
          h.ownerNamespace) := findByKey_eq_some_key rsKey _ s.rsList rs0 hfind
      have hfindF : findByKey rsKey (getReplicationSourceName rsSpec.protectedPVC.name,
          h.ownerNamespace) (upsertBy rsKey (rsMutation h rsSpec
            (GetVolSyncSSHSecretNameFromVRGName h.ownerName) vscName
            { schedule := none, manual := FinalSyncTriggerString } (some h.ownerName) rs0)
            s2.rsList) = some (rsMutation h rsSpec
            (GetVolSyncSSHSecretNameFromVRGName h.ownerName) vscName
            { schedule := none, manual := FinalSyncTriggerString } (some h.ownerName) rs0) := by
        rw [← hk0]
        exact findByKey_upsertBy_self rsKey _ s2.rsList
      constructor
      · refine ⟨rsMutation h rsSpec (GetVolSyncSSHSecretNameFromVRGName h.ownerName)
          vscName { schedule := none, manual := FinalSyncTriggerString } (some h.ownerName)
          rs0, ?_, rfl⟩
        rw [hrun]
        cases hready : isRSLastSyncTimeReady (rsMutation h rsSpec
            (GetVolSyncSSHSecretNameFromVRGName h.ownerName) vscName
            { schedule := none, manual := FinalSyncTriggerString } (some h.ownerName)
            rs0).status with
        | false =>
          simp only [hready]
          exact hfindF
        | true =>
          simp only [hready]
          split
          · exact hfindF
          · exact hfindF
      · intro rs0b st t hrs0b hst hecho hts htnz
        obtain rfl : rs0 = rs0b := Option.some_inj.mp hrs0b
        have hready : isRSLastSyncTimeReady (rsMutation h rsSpec
            (GetVolSyncSSHSecretNameFromVRGName h.ownerName) vscName
            { schedule := none, manual := FinalSyncTriggerString } (some h.ownerName)
            rs0).status = true := by
          show isRSLastSyncTimeReady rs0.status = true
          rw [hst]
          unfold isRSLastSyncTimeReady
          simp only [hts]
          exact decide_eq_true htnz
        have hcomplete : isFinalSyncComplete (rsMutation h rsSpec
            (GetVolSyncSSHSecretNameFromVRGName h.ownerName) vscName
            { schedule := none, manual := FinalSyncTriggerString } (some h.ownerName)
            rs0) = true := by
          unfold isFinalSyncComplete
          show (match rs0.status with
            | none => false
            | some st2 => decide (st2.lastManualSync = FinalSyncTriggerString)) = true
          rw [hst]
          exact decide_eq_true hecho
        rw [hrun]
        simp only [hready]
        rw [if_pos (And.intro True.intro hcomplete)]
        refine ⟨⟨_, rfl⟩, ?_⟩
        exact findByKey_removeByKey_self pvcKey _ _

/-- Witness for the amended C2 on concrete states: the mounted claim makes
the call wait; an unmounted state gets a manual-trigger RS; with the
final-sync echo and a non-zero last-sync time the call reports completion
and the claim is gone. -/
theorem final_sync_protocol_amended_C2_witness :
    ((ReconcileRS exHandler exRSSpec true exStateInUse).1 = .ok (false, none) ∧
      (ReconcileRS exHandler exRSSpec true exStateInUse).2.rsList = exStateInUse.rsList) ∧
    (∃ rsF, findByKey rsKey ("pvc-1", "ns-a")
        (ReconcileRS exHandler exRSSpec true exBaseState).2.rsList = some rsF ∧
      rsF.spec.trigger = some { schedule := none, manual := FinalSyncTriggerString }) ∧
    ((∃ rsF, (ReconcileRS exHandler exRSSpec true exStateDone).1 = .ok (true, some rsF)) ∧
      getPVC exHandler (ReconcileRS exHandler exRSSpec true exStateDone).2 "pvc-1" = none) :=
  ⟨(final_sync_protocol_amended_C2 exHandler exRSSpec exStateInUse rfl).1 rfl,
   ((final_sync_protocol_amended_C2 exHandler exRSSpec exBaseState rfl).2 exSecret rfl rfl
      "vsc-a" rfl (fun rs0 hc => Option.noConfusion hc)).1,
   ((final_sync_protocol_amended_C2 exHandler exRSSpec exStateDone rfl).2 exSecret rfl rfl
      "vsc-a" rfl (fun rs0 hc => by
        obtain rfl : exRSDone = rs0 := Option.some_inj.mp hc
        rfl)).2 exRSDone
      { lastManualSync := FinalSyncTriggerString, lastSyncTime := some 1 } 1 rfl rfl rfl rfl
      (by decide)⟩

/-! ## Invariant preservation (claim C1) -/

theorem VSInvariant_of_eq (h : VSHandler) (s1 s2 : ClusterState)
    (hrs : s1.rsList = s2.rsList) (hrd : s1.rdList = s2.rdList)
    (hinv : VSInvariant h s2) : VSInvariant h s1 := by
  obtain ⟨h1, h2, h3⟩ := hinv
  refine ⟨?_, ?_, ?_⟩
  · intro rs hmem
    rw [hrs] at hmem
    exact h1 rs hmem
  · intro rd hmem
    rw [hrd] at hmem
    exact h2 rd hmem
  · intro rs hrsmem rd hrdmem
    rw [hrs] at hrsmem
    rw [hrd] at hrdmem
    exact h3 rs hrsmem rd hrdmem

theorem mem_upsertBy {α : Type} (key : α → ObjKey) (o : α) (l : List α) (x : α)
    (hx : x ∈ upsertBy key o l) : x = o ∨ x ∈ l := by
  unfold upsertBy at hx
  rcases List.mem_cons.mp hx with h | h
  · exact Or.inl h
  · exact Or.inr (mem_of_mem_removeByKey key (key o) l x h)

theorem VSInvariant_DeleteRS (h : VSHandler) (p : String) (s : ClusterState)
    (hinv : VSInvariant h s) : VSInvariant h (DeleteRS h p s) := by
  obtain ⟨h1, h2, h3⟩ := hinv
  refine ⟨?_, ?_, ?_⟩
  · intro rs hmem
    exact h1 rs (DeleteRS_rsList_subset h p s rs hmem)
  · intro rd hmem
    rw [DeleteRS_rdList] at hmem
    exact h2 rd hmem
  · intro rs hrsmem rd hrdmem
    rw [DeleteRS_rdList] at hrdmem
    exact h3 rs (DeleteRS_rsList_subset h p s rs hrsmem) rd hrdmem

theorem VSInvariant_DeleteRD (h : VSHandler) (p : String) (s : ClusterState)
    (hinv : VSInvariant h s) : VSInvariant h (DeleteRD h p s) := by
  obtain ⟨h1, h2, h3⟩ := hinv
  refine ⟨?_, ?_, ?_⟩
  · intro rs hmem
    rw [DeleteRD_rsList] at hmem
    exact h1 rs hmem
  · intro rd hmem
    exact h2 rd (DeleteRD_rdList_subset h p s rd hmem)
  · intro rs hrsmem rd hrdmem
    rw [DeleteRD_rsList] at hrsmem
    exact h3 rs hrsmem rd (DeleteRD_rdList_subset h p s rd hrdmem)

theorem VSInvariant_upsertRD (h : VSHandler) (s : ClusterState) (rd : RDObj)
    (hinv : VSInvariant h s)
    (hns : rd.nspace = h.ownerNamespace)
    (hlab : getKV rd.labels VRGOwnerLabel = some h.ownerName)
    (hnors : ∀ rs ∈ s.rsList, ¬ rs.name = rd.name) :
    VSInvariant h { s with rdList := upsertBy rdKey rd s.rdList } := by
  obtain ⟨h1, h2, h3⟩ := hinv
  refine ⟨h1, ?_, ?_⟩
  · intro rd2 hmem
    rcases mem_upsertBy rdKey rd s.rdList rd2 hmem with heq | hold
    · subst heq
      exact ⟨hns, hlab⟩
    · exact h2 rd2 hold
  · intro rs hrsmem rd2 hrdmem
    rcases mem_upsertBy rdKey rd s.rdList rd2 hrdmem with heq | hold
    · subst heq
      exact hnors rs hrsmem
    · exact h3 rs hrsmem rd2 hold

theorem VSInvariant_upsertRS (h : VSHandler) (s : ClusterState) (rs : RSObj)
    (hinv : VSInvariant h s)
    (hns : rs.nspace = h.ownerNamespace)
    (hlab : getKV rs.labels VRGOwnerLabel = some h.ownerName)
    (hnord : ∀ rd ∈ s.rdList, ¬ rd.name = rs.name) :
    VSInvariant h { s with rsList := upsertBy rsKey rs s.rsList } := by
  obtain ⟨h1, h2, h3⟩ := hinv
  refine ⟨?_, h2, ?_⟩
  · intro rs2 hmem
    rcases mem_upsertBy rsKey rs s.rsList rs2 hmem with heq | hold
    · subst heq
      exact ⟨hns, hlab⟩
    · exact h1 rs2 hold
  · intro rs2 hrsmem rd hrdmem
    rcases mem_upsertBy rsKey rs s.rsList rs2 hrsmem with heq | hold
    · subst heq
      intro hcontra
      exact hnord rd hrdmem hcontra.symm
    · exact h3 rs2 hold rd hrdmem

/-- Inversion of a successful createOrUpdateRD. -/
theorem createOrUpdateRD_ok_inv (h : VSHandler) (rdSpec : VolSyncReplicationDestinationSpec)
    (sshName : String) (s : ClusterState) (rd : RDObj) (s2 : ClusterState)
    (hok : createOrUpdateRD h rdSpec sshName s = .ok (rd, s2)) :
    s2 = { s with rdList := upsertBy rdKey rd s.rdList } ∧
    rd.name = getReplicationDestinationName rdSpec.protectedPVC.name ∧
    rd.nspace = h.ownerNamespace ∧
    getKV rd.labels VRGOwnerLabel = some h.ownerName := by
  unfold createOrUpdateRD at hok
  cases hvsc : GetVolumeSnapshotClassFromPVCStorageClass h s
      rdSpec.protectedPVC.storageClassName with
  | error e =>
    rw [hvsc] at hok
    exact absurd hok (by simp)
  | ok vscName =>
    rw [hvsc] at hok
    simp only [] at hok
    cases hf : findByKey rdKey (getReplicationDestinationName rdSpec.protectedPVC.name,
        h.ownerNamespace) s.rdList with
    | none =>
      rw [hf] at hok
      simp only [Option.getD_none] at hok
      cases hc : setControllerReferenceGo h.ownerName
          (newRDStub (getReplicationDestinationName rdSpec.protectedPVC.name)
            h.ownerNamespace).controllerRef with
      | error e =>
        rw [hc] at hok
        exact absurd hok (by simp)
      | ok cref =>
        rw [hc] at hok
        simp only [Except.ok.injEq, Prod.mk.injEq] at hok
        obtain ⟨hrd, hs2⟩ := hok
        subst hrd
        rw [← hs2]
        exact ⟨rfl, rfl, rfl, getKV_setKV_self _ _ _⟩
    | some b =>
      rw [hf] at hok
      simp only [Option.getD_some] at hok
      have hkb : b.name = getReplicationDestinationName rdSpec.protectedPVC.name ∧
          b.nspace = h.ownerNamespace := by
        have := findByKey_eq_some_key rdKey _ s.rdList b hf
        exact Prod.mk.injEq _ _ _ _ ▸ this
      cases hc : setControllerReferenceGo h.ownerName b.controllerRef with
      | error e =>
        rw [hc] at hok
        exact absurd hok (by simp)
      | ok cref =>
        rw [hc] at hok
        simp only [Except.ok.injEq, Prod.mk.injEq] at hok
        obtain ⟨hrd, hs2⟩ := hok
        subst hrd
        rw [← hs2]
        exact ⟨rfl, hkb.1, hkb.2, getKV_setKV_self _ _ _⟩

/-- Inversion of a successful createOrUpdateRS. -/
theorem createOrUpdateRS_ok_inv (h : VSHandler) (rsSpec : VolSyncReplicationSourceSpec)
    (sshName : String) (runFinalSync : Bool) (s : ClusterState) (rs : RSObj)
    (s2 : ClusterState)
    (hok : createOrUpdateRS h rsSpec sshName runFinalSync s = .ok (rs, s2)) :
    s2 = { s with rsList := upsertBy rsKey rs s.rsList } ∧
    rs.name = getReplicationSourceName rsSpec.protectedPVC.name ∧
    rs.nspace = h.ownerNamespace ∧
    getKV rs.labels VRGOwnerLabel = some h.ownerName := by
  unfold createOrUpdateRS at hok
  cases hvsc : GetVolumeSnapshotClassFromPVCStorageClass h s
      rsSpec.protectedPVC.storageClassName with
  | error e =>
    rw [hvsc] at hok
    exact absurd hok (by simp)
  | ok vscName =>
    rw [hvsc] at hok
    simp only [] at hok
    cases htr : rsTrigger h runFinalSync with
    | error e =>
      rw [htr] at hok
      cases hf : findByKey rsKey (getReplicationSourceName rsSpec.protectedPVC.name,
          h.ownerNamespace) s.rsList with
      | none =>
        rw [hf] at hok
        simp only [Option.getD_none] at hok
        cases hc : setControllerReferenceGo h.ownerName
            (newRSStub (getReplicationSourceName rsSpec.protectedPVC.name)
              h.ownerNamespace).controllerRef with
        | error e2 =>
          rw [hc] at hok
          exact absurd hok (by simp)
        | ok cref =>
          rw [hc] at hok
          exact absurd hok (by simp)
      | some b =>
        rw [hf] at hok
        simp only [Option.getD_some] at hok
        cases hc : setControllerReferenceGo h.ownerName b.controllerRef with
        | error e2 =>
          rw [hc] at hok
          exact absurd hok (by simp)
        | ok cref =>
          rw [hc] at hok
          exact absurd hok (by simp)
    | ok trig =>
      rw [htr] at hok
      cases hf : findByKey rsKey (getReplicationSourceName rsSpec.protectedPVC.name,
          h.ownerNamespace) s.rsList with
      | none =>
        rw [hf] at hok
        simp only [Option.getD_none] at hok
        cases hc : setControllerReferenceGo h.ownerName
            (newRSStub (getReplicationSourceName rsSpec.protectedPVC.name)
              h.ownerNamespace).controllerRef with
        | error e =>
          rw [hc] at hok
          exact absurd hok (by simp)
        | ok cref =>
          rw [hc] at hok
          simp only [Except.ok.injEq, Prod.mk.injEq] at hok
          obtain ⟨hrs, hs2⟩ := hok
          subst hrs
          rw [← hs2]
          exact ⟨rfl, rfl, rfl, getKV_setKV_self _ _ _⟩
      | some b =>
        rw [hf] at hok
        simp only [Option.getD_some] at hok
        have hkb : b.name = getReplicationSourceName rsSpec.protectedPVC.name ∧
            b.nspace = h.ownerNamespace := by
          have := findByKey_eq_some_key rsKey _ s.rsList b hf
          exact Prod.mk.injEq _ _ _ _ ▸ this
        cases hc : setControllerReferenceGo h.ownerName b.controllerRef with
        | error e =>
          rw [hc] at hok
          exact absurd hok (by simp)
        | ok cref =>
          rw [hc] at hok
          simp only [Except.ok.injEq, Prod.mk.injEq] at hok
          obtain ⟨hrs, hs2⟩ := hok
          subst hrs
          rw [← hs2]
          exact ⟨rfl, hkb.1, hkb.2, getKV_setKV_self _ _ _⟩

theorem reconcileServiceExportForRD_rsList (h : VSHandler) (rd : RDObj) (s : ClusterState) :
    (reconcileServiceExportForRD h rd s).rsList = s.rsList := rfl

theorem reconcileServiceExportForRD_rdList (h : VSHandler) (rd : RDObj) (s : ClusterState) :
    (reconcileServiceExportForRD h rd s).rdList = s.rdList := rfl

/-- Deleting the same-named RS and then creating the RD keeps the invariant:
the freshly stored RD cannot collide with any remaining owned RS. -/
theorem VSInvariant_deleteRS_then_createRD (h : VSHandler)
    (rdSpec : VolSyncReplicationDestinationSpec) (sshName : String) (s : ClusterState)
    (hinv : VSInvariant h s) :
    ∀ rd s2, createOrUpdateRD h rdSpec sshName
      (DeleteRS h rdSpec.protectedPVC.name s) = .ok (rd, s2) → VSInvariant h s2 := by
  intro rd s2 hok
  have hinv2 := VSInvariant_DeleteRS h rdSpec.protectedPVC.name s hinv
  obtain ⟨hs2, hname, hns, hlab⟩ :=
    createOrUpdateRD_ok_inv h rdSpec sshName _ rd s2 hok
  rw [hs2]
  apply VSInvariant_upsertRD h _ rd hinv2 hns hlab
  intro rs hrsmem heq
  have hprops := hinv2.1 rs hrsmem
  exact DeleteRS_no_owned h rdSpec.protectedPVC.name s rs hrsmem hprops.1 hprops.2
    (heq.trans hname)

/-- Deleting the same-named RD and then creating the RS keeps the invariant. -/
theorem VSInvariant_deleteRD_then_createRS (h : VSHandler)
    (rsSpec : VolSyncReplicationSourceSpec) (sshName : String) (runFinalSync : Bool)
    (s : ClusterState) (hinv : VSInvariant h s) :
    ∀ rs s2, createOrUpdateRS h rsSpec sshName runFinalSync
      (DeleteRD h rsSpec.protectedPVC.name s) = .ok (rs, s2) → VSInvariant h s2 := by
  intro rs s2 hok
  have hinv2 := VSInvariant_DeleteRD h rsSpec.protectedPVC.name s hinv
  obtain ⟨hs2, hname, hns, hlab⟩ :=
    createOrUpdateRS_ok_inv h rsSpec sshName runFinalSync _ rs s2 hok
  rw [hs2]
  apply VSInvariant_upsertRS h _ rs hinv2 hns hlab
  intro rd hrdmem heq
  have hprops := hinv2.2.1 rd hrdmem
  exact DeleteRD_no_owned h rsSpec.protectedPVC.name s rd hrdmem hprops.1 hprops.2
    (heq.trans hname)

theorem VSInvariant_ReconcileRD (h : VSHandler) (rdSpec : VolSyncReplicationDestinationSpec)
    (s : ClusterState) (hinv : VSInvariant h s) :
    VSInvariant h (ReconcileRD h rdSpec s).2 := by
  cases henabled : rdSpec.protectedPVC.protectedByVolSync with
  | false =>
    unfold ReconcileRD
    simp only [henabled]
    exact hinv
  | true =>
    cases hfs : findByKey secretKey (GetVolSyncSSHSecretNameFromVRGName h.ownerName,
        h.ownerNamespace) s.secrets with
    | none =>
      unfold ReconcileRD
      simp only [henabled, validateSecret_not_found h _ s hfs]
      exact hinv
    | some secret =>
      unfold ReconcileRD
      simp only [henabled, validateSecret_found h _ s secret hfs]
      set s1 : ClusterState := { s with secrets := (upsertBy secretKey
        { secret with ownerRefs := insertIfAbsent h.ownerName secret.ownerRefs }
        s.secrets) } with hs1def
      have hinv1 : VSInvariant h s1 := VSInvariant_of_eq h s1 s rfl rfl hinv
      cases hcou : createOrUpdateRD h rdSpec (GetVolSyncSSHSecretNameFromVRGName h.ownerName)
          (DeleteRS h rdSpec.protectedPVC.name s1) with
      | error e =>
        simp only [hcou]
        exact VSInvariant_DeleteRS h rdSpec.protectedPVC.name s1 hinv1
      | ok pr =>
        obtain ⟨rd, s3⟩ := pr
        simp only [hcou]
        have hinv3 : VSInvariant h s3 :=
          VSInvariant_deleteRS_then_createRD h rdSpec _ s1 hinv1 rd s3 hcou
        have hinv4 : VSInvariant h (reconcileServiceExportForRD h rd s3) :=
          VSInvariant_of_eq h _ s3 (reconcileServiceExportForRD_rsList h rd s3)
            (reconcileServiceExportForRD_rdList h rd s3) hinv3
        split
        · exact hinv4
        · exact hinv4

theorem VSInvariant_ReconcileRS (h : VSHandler) (rsSpec : VolSyncReplicationSourceSpec)
    (runFinalSync : Bool) (s : ClusterState) (hinv : VSInvariant h s) :
    VSInvariant h (ReconcileRS h rsSpec runFinalSync s).2 := by
  cases henabled : rsSpec.protectedPVC.protectedByVolSync with
  | false =>
    unfold ReconcileRS
    simp only [henabled]
    exact hinv
  | true =>
    cases hfs : findByKey secretKey (GetVolSyncSSHSecretNameFromVRGName h.ownerName,
        h.ownerNamespace) s.secrets with
    | none =>
      unfold ReconcileRS
      simp only [henabled, validateSecret_not_found h _ s hfs]
      exact hinv
    | some secret =>
      unfold ReconcileRS
      simp only [henabled, validateSecret_found h _ s secret hfs]
      set s1 : ClusterState := { s with secrets := (upsertBy secretKey
        { secret with ownerRefs := insertIfAbsent h.ownerName secret.ownerRefs }
        s.secrets) } with hs1def
      have hinv1 : VSInvariant h s1 := VSInvariant_of_eq h s1 s rfl rfl hinv
      have hinv2 : VSInvariant h (DeleteRD h rsSpec.protectedPVC.name s1) :=
        VSInvariant_DeleteRD h rsSpec.protectedPVC.name s1 hinv1
      cases hval : validatePVCBeforeFinalSync h rsSpec.protectedPVC.name runFinalSync
          (DeleteRD h rsSpec.protectedPVC.name s1) with
      | false =>
        simp only [hval]
        exact hinv2
      | true =>
        simp only [hval]
        cases hcou : createOrUpdateRS h rsSpec
            (GetVolSyncSSHSecretNameFromVRGName h.ownerName) runFinalSync
            (DeleteRD h rsSpec.protectedPVC.name s1) with
        | error e =>
          simp only [hcou]
          exact hinv2
        | ok pr =>
          obtain ⟨rs, s3⟩ := pr
          simp only [hcou]
          have hinv3 : VSInvariant h s3 :=
            VSInvariant_deleteRD_then_createRS h rsSpec _ runFinalSync s1 hinv1 rs s3 hcou
          cases hready : isRSLastSyncTimeReady rs.status with
          | false =>
            simp only [hready]
            exact hinv3
          | true =>
            simp only [hready]
            split
            · exact VSInvariant_of_eq h _ s3 rfl rfl hinv3
            · exact hinv3

theorem VSInvariant_applyOp (h : VSHandler) (op : ReconcileOp) (s : ClusterState)
    (hinv : VSInvariant h s) : VSInvariant h (applyOp h op s) := by
  cases op with
  | rd rdSpec => exact VSInvariant_ReconcileRD h rdSpec s hinv
  | rs rsSpec runFinalSync => exact VSInvariant_ReconcileRS h rsSpec runFinalSync s hinv

theorem VSInvariant_runOps (h : VSHandler) (ops : List ReconcileOp) :
    ∀ s : ClusterState, VSInvariant h s → VSInvariant h (runOps h ops s) := by
  induction ops with
  | nil => intro s hinv; exact hinv
  | cons op ops ih =>
    intro s hinv
    exact ih (applyOp h op s) (VSInvariant_applyOp h op s hinv)

/-! ## Claim C1: mutual exclusion of replication roles -/

/-- Claim C1: starting from a state where all RS/RD children live in the
owner namespace with the owner label and no volume name holds both roles,
every sequence of ReconcileRD/ReconcileRS calls preserves this, so for each
(Owner, volume name) pair at most one of ReplicationSource and
ReplicationDestination exists; and at the observable instants inside a call
the invariant also holds, because each entry point deletes the opposite-role
object (DeleteRS respectively DeleteRD) before its create-or-update. -/
theorem mutual_exclusion_C1 (h : VSHandler) (s : ClusterState) (hinv : VSInvariant h s) :
    (∀ ops : List ReconcileOp, VSInvariant h (runOps h ops s)) ∧
    (∀ rdSpec : VolSyncReplicationDestinationSpec,
      VSInvariant h (DeleteRS h rdSpec.protectedPVC.name s) ∧
      ∀ rd s2, createOrUpdateRD h rdSpec (GetVolSyncSSHSecretNameFromVRGName h.ownerName)
        (DeleteRS h rdSpec.protectedPVC.name s) = .ok (rd, s2) → VSInvariant h s2) ∧
    (∀ (rsSpec : VolSyncReplicationSourceSpec) (runFinalSync : Bool),
      VSInvariant h (DeleteRD h rsSpec.protectedPVC.name s) ∧
      ∀ rs s2, createOrUpdateRS h rsSpec (GetVolSyncSSHSecretNameFromVRGName h.ownerName)
        runFinalSync (DeleteRD h rsSpec.protectedPVC.name s) = .ok (rs, s2) →
        VSInvariant h s2) := by
  refine ⟨fun ops => VSInvariant_runOps h ops s hinv, ?_, ?_⟩
  · intro rdSpec
    exact ⟨VSInvariant_DeleteRS h rdSpec.protectedPVC.name s hinv,
      VSInvariant_deleteRS_then_createRD h rdSpec _ s hinv⟩
  · intro rsSpec runFinalSync
    exact ⟨VSInvariant_DeleteRD h rsSpec.protectedPVC.name s hinv,
      VSInvariant_deleteRD_then_createRS h rsSpec _ runFinalSync s hinv⟩

/-- Witness for C1: a concrete run that flips the volume from source role to
destination role and back, starting from a state holding an owned RS. -/
theorem mutual_exclusion_C1_witness :
    VSInvariant exHandler (runOps exHandler
      [ReconcileOp.rd exRDSpec, ReconcileOp.rs exRSSpec false, ReconcileOp.rd exRDSpec]
      exStateDone) :=
  (mutual_exclusion_C1 exHandler exStateDone
      (by unfold VSInvariant OwnedRS OwnedRD MutexRSRD; exact ⟨by decide, by decide, by decide⟩)).1
    [ReconcileOp.rd exRDSpec, ReconcileOp.rs exRSSpec false, ReconcileOp.rd exRDSpec]

/-! ## Second-call stability lemmas (claim C9) -/

theorem setControllerReferenceGo_own (x : String) :
    setControllerReferenceGo x (some x) = .ok (some x) := by
  simp [setControllerReferenceGo]

theorem setControllerReferenceGo_ok_val (ownerName : String) (x : Option String)
    (cref : Option String) (hok : setControllerReferenceGo ownerName x = .ok cref) :
    cref = some ownerName := by
  cases x with
  | none =>
    simp only [setControllerReferenceGo, Except.ok.injEq] at hok
    exact hok.symm
  | some existing =>
    by_cases he : existing = ownerName
    · simp only [setControllerReferenceGo, if_pos he, Except.ok.injEq] at hok
      exact hok.symm
    · simp only [setControllerReferenceGo, if_neg he] at hok
      exact absurd hok (by simp)

theorem rdMutation_idem (h : VSHandler) (rdSpec : VolSyncReplicationDestinationSpec)
    (sshName vscName : String) (base : RDObj) :
    rdMutation h rdSpec sshName vscName (some h.ownerName)
      (rdMutation h rdSpec sshName vscName (some h.ownerName) base)
    = rdMutation h rdSpec sshName vscName (some h.ownerName) base := by
  cases base with
  | mk n ns lab cref spec status =>
    simp only [rdMutation, addVRGOwnerLabel]
    rw [setKV_idem]

theorem rsMutation_idem (h : VSHandler) (rsSpec : VolSyncReplicationSourceSpec)
    (sshName vscName : String) (trig : ReplicationSourceTriggerSpec) (base : RSObj) :
    rsMutation h rsSpec sshName vscName trig (some h.ownerName)
      (rsMutation h rsSpec sshName vscName trig (some h.ownerName) base)
    = rsMutation h rsSpec sshName vscName trig (some h.ownerName) base := by
  cases base with
  | mk n ns lab cref spec status =>
    simp only [rsMutation, addVRGOwnerLabel]
    rw [setKV_idem]

/-- A second validateSecretAndAddVRGOwnerRef on a state already carrying the
owner reference changes nothing. -/
theorem validateSecret_stable (h : VSHandler) (n : String) (s2 : ClusterState)
    (sec2 : SecretObj)
    (hf2 : findByKey secretKey (n, h.ownerNamespace) s2.secrets = some sec2)
    (hup : upsertBy secretKey
      { sec2 with ownerRefs := insertIfAbsent h.ownerName sec2.ownerRefs }
      s2.secrets = s2.secrets) :
    validateSecretAndAddVRGOwnerRef h n s2 = (true, s2) := by
  simp only [validateSecretAndAddVRGOwnerRef, hf2]
  rw [hup]

/-- A second reconcileServiceExportForRD on its own output changes nothing. -/
theorem reconcileServiceExport_stable (h : VSHandler) (rd : RDObj) (s2 : ClusterState)
    (se2 : SvcExportObj)
    (hf2 : findByKey svcExportKey (getLocalServiceNameForRD rd.name, rd.nspace)
      s2.serviceExports = some se2)
    (hup : upsertBy svcExportKey
      { se2 with ownerRefs := insertIfAbsent rd.name se2.ownerRefs }
      s2.serviceExports = s2.serviceExports) :
    reconcileServiceExportForRD h rd s2 = s2 := by
  simp only [reconcileServiceExportForRD, hf2, Option.getD_some]
  rw [hup]

/-- A second createOrUpdateRD over an already-reconciled RD is a no-op. -/
theorem createOrUpdateRD_stable (h : VSHandler) (rdSpec : VolSyncReplicationDestinationSpec)
    (sshName : String) (s2 : ClusterState) (vscName : String) (rd : RDObj)
    (hvsc : GetVolumeSnapshotClassFromPVCStorageClass h s2
      rdSpec.protectedPVC.storageClassName = .ok vscName)
    (hf2 : findByKey rdKey (getReplicationDestinationName rdSpec.protectedPVC.name,
      h.ownerNamespace) s2.rdList = some rd)
    (hcr : rd.controllerRef = some h.ownerName)
    (hmut : rdMutation h rdSpec sshName vscName (some h.ownerName) rd = rd)
    (hup : upsertBy rdKey rd s2.rdList = s2.rdList) :
    createOrUpdateRD h rdSpec sshName s2 = .ok (rd, s2) := by
  unfold createOrUpdateRD
  simp only [hvsc, hf2, Option.getD_some, hcr, setControllerReferenceGo_own]
  rw [hmut, hup]

/-- A second createOrUpdateRS over an already-reconciled RS is a no-op. -/
theorem createOrUpdateRS_stable (h : VSHandler) (rsSpec : VolSyncReplicationSourceSpec)
    (sshName : String) (runFinalSync : Bool) (s2 : ClusterState) (vscName : String)
    (trig : ReplicationSourceTriggerSpec) (rs : RSObj)
    (hvsc : GetVolumeSnapshotClassFromPVCStorageClass h s2
      rsSpec.protectedPVC.storageClassName = .ok vscName)
    (htrig : rsTrigger h runFinalSync = .ok trig)
    (hf2 : findByKey rsKey (getReplicationSourceName rsSpec.protectedPVC.name,
      h.ownerNamespace) s2.rsList = some rs)
    (hcr : rs.controllerRef = some h.ownerName)
    (hmut : rsMutation h rsSpec sshName vscName trig (some h.ownerName) rs = rs)
    (hup : upsertBy rsKey rs s2.rsList = s2.rsList) :
    createOrUpdateRS h rsSpec sshName runFinalSync s2 = .ok (rs, s2) := by
  unfold createOrUpdateRS
  simp only [hvsc, hf2, Option.getD_some, hcr, setControllerReferenceGo_own, htrig]
  rw [hmut, hup]

theorem reconcileServiceExportForRD_secrets (h : VSHandler) (rd : RDObj) (s : ClusterState) :
    (reconcileServiceExportForRD h rd s).secrets = s.secrets := rfl

theorem reconcileServiceExportForRD_pvcs (h : VSHandler) (rd : RDObj) (s : ClusterState) :
    (reconcileServiceExportForRD h rd s).pvcs = s.pvcs := rfl

theorem reconcileServiceExportForRD_pods (h : VSHandler) (rd : RDObj) (s : ClusterState) :
    (reconcileServiceExportForRD h rd s).pods = s.pods := rfl

theorem reconcileServiceExportForRD_storageClasses (h : VSHandler) (rd : RDObj)
    (s : ClusterState) :
    (reconcileServiceExportForRD h rd s).storageClasses = s.storageClasses := rfl

theorem reconcileServiceExportForRD_snapClasses (h : VSHandler) (rd : RDObj)
    (s : ClusterState) :
    (reconcileServiceExportForRD h rd s).snapClasses = s.snapClasses := rfl

theorem findByKey_upsertBy_of_key {α : Type} (key : α → ObjKey) (o : α) (l : List α)
    (k : ObjKey) (hk : key o = k) :
    findByKey key k (upsertBy key o l) = some o := by
  rw [← hk]
  exact findByKey_upsertBy_self key o l

/-- reconcileServiceExportForRD applied twice is the same as once. -/
theorem reconcileServiceExportForRD_idem (h : VSHandler) (rd : RDObj) (s : ClusterState) :
    reconcileServiceExportForRD h rd (reconcileServiceExportForRD h rd s)
      = reconcileServiceExportForRD h rd s := by
  cases hf : findByKey svcExportKey (getLocalServiceNameForRD rd.name, rd.nspace)
      s.serviceExports with
  | none =>
    simp only [reconcileServiceExportForRD, hf, Option.getD_none]
    rw [findByKey_upsertBy_of_key svcExportKey
      { name := getLocalServiceNameForRD rd.name, nspace := rd.nspace,
        ownerRefs := insertIfAbsent rd.name [] } s.serviceExports
      (getLocalServiceNameForRD rd.name, rd.nspace) rfl]
    simp only [Option.getD_some, insertIfAbsent_idem]
    rw [upsertBy_idem]
  | some se0 =>
    simp only [reconcileServiceExportForRD, hf, Option.getD_some]
    rw [findByKey_upsertBy_of_key svcExportKey
      { name := se0.name, nspace := se0.nspace,
        ownerRefs := insertIfAbsent rd.name se0.ownerRefs } s.serviceExports
      (getLocalServiceNameForRD rd.name, rd.nspace)
      (findByKey_eq_some_key svcExportKey _ _ se0 hf)]
    simp only [Option.getD_some, insertIfAbsent_idem]
    rw [upsertBy_idem]

/-- Full inversion of a successful createOrUpdateRD, exposing the matched
snapshot class and the fetched base object. -/
theorem createOrUpdateRD_ok_inv2 (h : VSHandler) (rdSpec : VolSyncReplicationDestinationSpec)
    (sshName : String) (s : ClusterState) (rd : RDObj) (s2 : ClusterState)
    (hok : createOrUpdateRD h rdSpec sshName s = .ok (rd, s2)) :
    ∃ vscName base,
      GetVolumeSnapshotClassFromPVCStorageClass h s
        rdSpec.protectedPVC.storageClassName = .ok vscName ∧
      (findByKey rdKey (getReplicationDestinationName rdSpec.protectedPVC.name,
        h.ownerNamespace) s.rdList).getD
        (newRDStub (getReplicationDestinationName rdSpec.protectedPVC.name)
          h.ownerNamespace) = base ∧
      rd = rdMutation h rdSpec sshName vscName (some h.ownerName) base ∧
      s2 = { s with rdList := upsertBy rdKey rd s.rdList } := by
  unfold createOrUpdateRD at hok
  cases hvsc : GetVolumeSnapshotClassFromPVCStorageClass h s
      rdSpec.protectedPVC.storageClassName with
  | error e =>
    rw [hvsc] at hok
    exact absurd hok (by simp)
  | ok vscName =>
    rw [hvsc] at hok
    simp only [] at hok
    cases hc : setControllerReferenceGo h.ownerName
        ((findByKey rdKey (getReplicationDestinationName rdSpec.protectedPVC.name,
          h.ownerNamespace) s.rdList).getD
          (newRDStub (getReplicationDestinationName rdSpec.protectedPVC.name)
            h.ownerNamespace)).controllerRef with
    | error e =>
      rw [hc] at hok
      exact absurd hok (by simp)
    | ok cref =>
      rw [hc] at hok
      obtain rfl := setControllerReferenceGo_ok_val h.ownerName _ cref hc
      simp only [Except.ok.injEq, Prod.mk.injEq] at hok
      obtain ⟨hrd, hs2⟩ := hok
      exact ⟨vscName, _, rfl, rfl, hrd.symm, by rw [← hs2, hrd]⟩

/-- Full inversion of a successful createOrUpdateRS. -/
theorem createOrUpdateRS_ok_inv2 (h : VSHandler) (rsSpec : VolSyncReplicationSourceSpec)
    (sshName : String) (runFinalSync : Bool) (s : ClusterState) (rs : RSObj)
    (s2 : ClusterState)
    (hok : createOrUpdateRS h rsSpec sshName runFinalSync s = .ok (rs, s2)) :
    ∃ vscName trig base,
      GetVolumeSnapshotClassFromPVCStorageClass h s
        rsSpec.protectedPVC.storageClassName = .ok vscName ∧
      rsTrigger h runFinalSync = .ok trig ∧
      (findByKey rsKey (getReplicationSourceName rsSpec.protectedPVC.name,
        h.ownerNamespace) s.rsList).getD
        (newRSStub (getReplicationSourceName rsSpec.protectedPVC.name)
          h.ownerNamespace) = base ∧
      rs = rsMutation h rsSpec sshName vscName trig (some h.ownerName) base ∧
      s2 = { s with rsList := upsertBy rsKey rs s.rsList } := by
  unfold createOrUpdateRS at hok
  cases hvsc : GetVolumeSnapshotClassFromPVCStorageClass h s
      rsSpec.protectedPVC.storageClassName with
  | error e =>
    rw [hvsc] at hok
    exact absurd hok (by simp)
  | ok vscName =>
    rw [hvsc] at hok
    simp only [] at hok
    cases hc : setControllerReferenceGo h.ownerName
        ((findByKey rsKey (getReplicationSourceName rsSpec.protectedPVC.name,
          h.ownerNamespace) s.rsList).getD
          (newRSStub (getReplicationSourceName rsSpec.protectedPVC.name)
            h.ownerNamespace)).controllerRef with
    | error e =>
      rw [hc] at hok
      exact absurd hok (by simp)
    | ok cref =>
      rw [hc] at hok
      obtain rfl := setControllerReferenceGo_ok_val h.ownerName _ cref hc
      cases htr : rsTrigger h runFinalSync with
      | error e =>
        rw [htr] at hok
        exact absurd hok (by simp)
      | ok trig =>
        rw [htr] at hok
        simp only [Except.ok.injEq, Prod.mk.injEq] at hok
        obtain ⟨hrs, hs2⟩ := hok
        exact ⟨vscName, trig, _, rfl, rfl, rfl, hrs.symm, by rw [← hs2, hrs]⟩

/-- Second validateSecretAndAddVRGOwnerRef against any state whose secret
list already carries the stamped secret at the front. -/
theorem validateSecret_stable_of_secrets (h : VSHandler) (sec : SecretObj)
    (s t : ClusterState)
    (hfs : findByKey secretKey (GetVolSyncSSHSecretNameFromVRGName h.ownerName,
      h.ownerNamespace) s.secrets = some sec)
    (hsec : t.secrets = upsertBy secretKey
      { sec with ownerRefs := insertIfAbsent h.ownerName sec.ownerRefs } s.secrets) :
    validateSecretAndAddVRGOwnerRef h (GetVolSyncSSHSecretNameFromVRGName h.ownerName) t
      = (true, t) := by
  have hk : secretKey { sec with ownerRefs := insertIfAbsent h.ownerName sec.ownerRefs }
      = (GetVolSyncSSHSecretNameFromVRGName h.ownerName, h.ownerNamespace) :=
    findByKey_eq_some_key secretKey _ s.secrets sec hfs
  refine validateSecret_stable h _ t
    { sec with ownerRefs := insertIfAbsent h.ownerName sec.ownerRefs } ?_ ?_
  · rw [hsec]
    exact findByKey_upsertBy_of_key secretKey _ s.secrets _ hk
  · simp only [insertIfAbsent_idem]
    rw [hsec]
    exact upsertBy_idem secretKey _ s.secrets

theorem validatePVC_congr (h : VSHandler) (p : String) (f : Bool) (sa sb : ClusterState)
    (hp : sa.pvcs = sb.pvcs) (hq : sa.pods = sb.pods) :
    validatePVCBeforeFinalSync h p f sa = validatePVCBeforeFinalSync h p f sb := by
  unfold validatePVCBeforeFinalSync
  cases f with
  | false => rfl
  | true =>
    show (! pvcExistsAndInUse h sa p) = ! pvcExistsAndInUse h sb p
    rw [pvcExistsAndInUse_congr h sa sb p hp hq]

/-- Running ReconcileRD again on the state left by a successful run recomputes
the same answer without further mutation. -/
theorem ReconcileRD_second (h : VSHandler) (rdSpec : VolSyncReplicationDestinationSpec)
    (sec : SecretObj) (rd : RDObj) (s s1 s2 s3 s4 : ClusterState)
    (henabled : rdSpec.protectedPVC.protectedByVolSync = true)
    (hfs : findByKey secretKey (GetVolSyncSSHSecretNameFromVRGName h.ownerName,
      h.ownerNamespace) s.secrets = some sec)
    (hs1 : s1 = { s with secrets := (upsertBy secretKey
      { sec with ownerRefs := insertIfAbsent h.ownerName sec.ownerRefs } s.secrets) })
    (hs2 : s2 = DeleteRS h rdSpec.protectedPVC.name s1)
    (hcou : createOrUpdateRD h rdSpec (GetVolSyncSSHSecretNameFromVRGName h.ownerName) s2
      = .ok (rd, s3))
    (hs4 : s4 = reconcileServiceExportForRD h rd s3) :
    ReconcileRD h rdSpec s4 =
      (if rdStatusReady rd = true then (.ok (some rd), s4) else (.ok none, s4)) := by
  obtain ⟨hs3, hname, hnsp, hlab⟩ :=
    createOrUpdateRD_ok_inv h rdSpec (GetVolSyncSSHSecretNameFromVRGName h.ownerName)
      s2 rd s3 hcou
  obtain ⟨vscName, base, hvsc, hbase, hrdm, hs3b⟩ :=
    createOrUpdateRD_ok_inv2 h rdSpec (GetVolSyncSSHSecretNameFromVRGName h.ownerName)
      s2 rd s3 hcou
  have hsec4 : s4.secrets = upsertBy secretKey
      { sec with ownerRefs := insertIfAbsent h.ownerName sec.ownerRefs } s.secrets := by
    rw [hs4, reconcileServiceExportForRD_secrets, hs3]
    show s2.secrets = _
    rw [hs2, DeleteRS_secrets, hs1]
  have hval4 := validateSecret_stable_of_secrets h sec s s4 hfs hsec4
  have hrs4 : s4.rsList = s2.rsList := by
    rw [hs4, reconcileServiceExportForRD_rsList, hs3]
  have hdel4 : DeleteRS h rdSpec.protectedPVC.name s4 = s4 := by
    apply DeleteRS_id
    rw [hrs4, hs2]
    exact DeleteRS_no_owned h rdSpec.protectedPVC.name s1
  have hsc4 : s4.storageClasses = s2.storageClasses := by
    rw [hs4, reconcileServiceExportForRD_storageClasses, hs3]
  have hsnap4 : s4.snapClasses = s2.snapClasses := by
    rw [hs4, reconcileServiceExportForRD_snapClasses, hs3]
  have hvsc4 : GetVolumeSnapshotClassFromPVCStorageClass h s4
      rdSpec.protectedPVC.storageClassName = .ok vscName := by
    rw [getVSC_congr h s4 s2 rdSpec.protectedPVC.storageClassName hsc4 hsnap4]
    exact hvsc
  have hrd4 : s4.rdList = upsertBy rdKey rd s2.rdList := by
    rw [hs4, reconcileServiceExportForRD_rdList, hs3]
  have hkrd : rdKey rd = (getReplicationDestinationName rdSpec.protectedPVC.name,
      h.ownerNamespace) := by
    show (rd.name, rd.nspace) = _
    rw [hname, hnsp]
  have hfrd4 : findByKey rdKey (getReplicationDestinationName rdSpec.protectedPVC.name,
      h.ownerNamespace) s4.rdList = some rd := by
    rw [hrd4]
    exact findByKey_upsertBy_of_key rdKey rd s2.rdList _ hkrd
  have hcr : rd.controllerRef = some h.ownerName := by
    rw [hrdm]
    rfl
  have hmut : rdMutation h rdSpec (GetVolSyncSSHSecretNameFromVRGName h.ownerName) vscName
      (some h.ownerName) rd = rd := by
    rw [hrdm]
    exact rdMutation_idem h rdSpec (GetVolSyncSSHSecretNameFromVRGName h.ownerName) vscName base
  have hup4 : upsertBy rdKey rd s4.rdList = s4.rdList := by
    rw [hrd4]
    exact upsertBy_idem rdKey rd s2.rdList
  have hcou4 : createOrUpdateRD h rdSpec (GetVolSyncSSHSecretNameFromVRGName h.ownerName) s4
      = .ok (rd, s4) :=
    createOrUpdateRD_stable h rdSpec _ s4 vscName rd hvsc4 hfrd4 hcr hmut hup4
  have hsvc4 : reconcileServiceExportForRD h rd s4 = s4 := by
    rw [hs4]
    exact reconcileServiceExportForRD_idem h rd s3
  simp only [ReconcileRD, henabled, hval4, hdel4, hcou4, hsvc4]

/-- A second ReconcileRD immediately after a successful call returns the
same result and leaves the state untouched. -/
theorem ReconcileRD_idem (h : VSHandler) (rdSpec : VolSyncReplicationDestinationSpec)
    (r : Option RDObj) (s s1 : ClusterState)
    (hok : ReconcileRD h rdSpec s = (.ok r, s1)) :
    ReconcileRD h rdSpec s1 = (.ok r, s1) := by
  cases henabled : rdSpec.protectedPVC.protectedByVolSync with
  | false =>
    simp only [ReconcileRD, henabled] at hok
    exact absurd (congrArg Prod.fst hok) (by simp)
  | true =>
    cases hfs : findByKey secretKey (GetVolSyncSSHSecretNameFromVRGName h.ownerName,
        h.ownerNamespace) s.secrets with
    | none =>
      simp only [ReconcileRD, henabled,
        validateSecret_not_found h (GetVolSyncSSHSecretNameFromVRGName h.ownerName) s hfs] at hok
      simp only [Prod.mk.injEq, Except.ok.injEq] at hok
      obtain ⟨hr, hs⟩ := hok
      subst hs
      subst hr
      simp only [ReconcileRD, henabled,
        validateSecret_not_found h (GetVolSyncSSHSecretNameFromVRGName h.ownerName) s hfs]
    | some sec =>
      simp only [ReconcileRD, henabled,
        validateSecret_found h (GetVolSyncSSHSecretNameFromVRGName h.ownerName) s sec hfs] at hok
      split at hok
      · exact absurd (congrArg Prod.fst hok) (by simp)
      · rename_i rd s3 hcou
        have hsecond := ReconcileRD_second h rdSpec sec rd s _ _ s3 _ henabled hfs rfl rfl hcou rfl
        split at hok
        · rename_i hready
          simp only [Prod.mk.injEq, Except.ok.injEq] at hok
          obtain ⟨hr, hs⟩ := hok
          subst hs
          subst hr
          rw [hsecond, if_pos hready]
        · rename_i hready
          simp only [Prod.mk.injEq, Except.ok.injEq] at hok
          obtain ⟨hr, hs⟩ := hok
          subst hs
          subst hr
          rw [hsecond, if_neg hready]

/-- Second ReconcileRS after a first call that stopped at the in-use check:
nothing further changes. -/
theorem ReconcileRS_second_wait (h : VSHandler) (rsSpec : VolSyncReplicationSourceSpec)
    (runFinalSync : Bool) (sec : SecretObj) (s s1 s2 : ClusterState)
    (henabled : rsSpec.protectedPVC.protectedByVolSync = true)
    (hfs : findByKey secretKey (GetVolSyncSSHSecretNameFromVRGName h.ownerName,
      h.ownerNamespace) s.secrets = some sec)
    (hs1 : s1 = { s with secrets := (upsertBy secretKey
      { sec with ownerRefs := insertIfAbsent h.ownerName sec.ownerRefs } s.secrets) })
    (hs2 : s2 = DeleteRD h rsSpec.protectedPVC.name s1)
    (hval : validatePVCBeforeFinalSync h rsSpec.protectedPVC.name runFinalSync s2 = false) :
    ReconcileRS h rsSpec runFinalSync s2 = (.ok (false, none), s2) := by
  have hsec2 : s2.secrets = upsertBy secretKey
      { sec with ownerRefs := insertIfAbsent h.ownerName sec.ownerRefs } s.secrets := by
    rw [hs2, DeleteRD_secrets, hs1]
  have hval2 := validateSecret_stable_of_secrets h sec s s2 hfs hsec2
  have hdel2 : DeleteRD h rsSpec.protectedPVC.name s2 = s2 := by
    apply DeleteRD_id
    rw [hs2]
    exact DeleteRD_no_owned h rsSpec.protectedPVC.name s1
  simp only [ReconcileRS, henabled, hval2, hdel2, hval]

/-- Second ReconcileRS over the state left by a successful create-or-update
whose result was kept (no final-sync cleanup ran). -/
theorem ReconcileRS_second_run (h : VSHandler) (rsSpec : VolSyncReplicationSourceSpec)
    (runFinalSync : Bool) (sec : SecretObj) (rs : RSObj) (s s1 s2 s3 : ClusterState)
    (henabled : rsSpec.protectedPVC.protectedByVolSync = true)
    (hfs : findByKey secretKey (GetVolSyncSSHSecretNameFromVRGName h.ownerName,
      h.ownerNamespace) s.secrets = some sec)
    (hs1 : s1 = { s with secrets := (upsertBy secretKey
      { sec with ownerRefs := insertIfAbsent h.ownerName sec.ownerRefs } s.secrets) })
    (hs2 : s2 = DeleteRD h rsSpec.protectedPVC.name s1)
    (hval : validatePVCBeforeFinalSync h rsSpec.protectedPVC.name runFinalSync s2 = true)
    (hcou : createOrUpdateRS h rsSpec (GetVolSyncSSHSecretNameFromVRGName h.ownerName)
      runFinalSync s2 = .ok (rs, s3)) :
    ReconcileRS h rsSpec runFinalSync s3 =
      (match isRSLastSyncTimeReady rs.status with
       | false => (.ok (false, none), s3)
       | true =>
         if runFinalSync = true ∧ isFinalSyncComplete rs = true then
           (.ok (true, some rs), cleanupAfterRSFinalSync h rsSpec s3)
         else (.ok (false, some rs), s3)) := by
  obtain ⟨hs3, hname, hnsp, hlab⟩ :=
    createOrUpdateRS_ok_inv h rsSpec (GetVolSyncSSHSecretNameFromVRGName h.ownerName)
      runFinalSync s2 rs s3 hcou
  obtain ⟨vscName, trig, base, hvsc, htrig, hbase, hrsm, hs3b⟩ :=
    createOrUpdateRS_ok_inv2 h rsSpec (GetVolSyncSSHSecretNameFromVRGName h.ownerName)
      runFinalSync s2 rs s3 hcou
  have hsec3 : s3.secrets = upsertBy secretKey
      { sec with ownerRefs := insertIfAbsent h.ownerName sec.ownerRefs } s.secrets := by
    rw [hs3]
    show s2.secrets = _
    rw [hs2, DeleteRD_secrets, hs1]
  have hval3sec := validateSecret_stable_of_secrets h sec s s3 hfs hsec3
  have hrd3 : s3.rdList = s2.rdList := by rw [hs3]
  have hdel3 : DeleteRD h rsSpec.protectedPVC.name s3 = s3 := by
    apply DeleteRD_id
    rw [hrd3, hs2]
    exact DeleteRD_no_owned h rsSpec.protectedPVC.name s1
  have hpvc3 : s3.pvcs = s2.pvcs := by rw [hs3]
  have hpod3 : s3.pods = s2.pods := by rw [hs3]
  have hval3 : validatePVCBeforeFinalSync h rsSpec.protectedPVC.name runFinalSync s3 = true := by
    rw [validatePVC_congr h rsSpec.protectedPVC.name runFinalSync s3 s2 hpvc3 hpod3]
    exact hval
  have hsc3 : s3.storageClasses = s2.storageClasses := by rw [hs3]
  have hsnap3 : s3.snapClasses = s2.snapClasses := by rw [hs3]
  have hvsc3 : GetVolumeSnapshotClassFromPVCStorageClass h s3
      rsSpec.protectedPVC.storageClassName = .ok vscName := by
    rw [getVSC_congr h s3 s2 rsSpec.protectedPVC.storageClassName hsc3 hsnap3]
    exact hvsc
  have hrs3 : s3.rsList = upsertBy rsKey rs s2.rsList := by rw [hs3]
  have hkrs : rsKey rs = (getReplicationSourceName rsSpec.protectedPVC.name,
      h.ownerNamespace) := by
    show (rs.name, rs.nspace) = _
    rw [hname, hnsp]
  have hfrs3 : findByKey rsKey (getReplicationSourceName rsSpec.protectedPVC.name,
      h.ownerNamespace) s3.rsList = some rs := by
    rw [hrs3]
    exact findByKey_upsertBy_of_key rsKey rs s2.rsList _ hkrs
  have hcr : rs.controllerRef = some h.ownerName := by
    rw [hrsm]
    rfl
  have hmut : rsMutation h rsSpec (GetVolSyncSSHSecretNameFromVRGName h.ownerName) vscName
      trig (some h.ownerName) rs = rs := by
    rw [hrsm]
    exact rsMutation_idem h rsSpec (GetVolSyncSSHSecretNameFromVRGName h.ownerName) vscName
      trig base
  have hup3 : upsertBy rsKey rs s3.rsList = s3.rsList := by
    rw [hrs3]
    exact upsertBy_idem rsKey rs s2.rsList
  have hcou3 : createOrUpdateRS h rsSpec (GetVolSyncSSHSecretNameFromVRGName h.ownerName)
      runFinalSync s3 = .ok (rs, s3) :=
    createOrUpdateRS_stable h rsSpec _ runFinalSync s3 vscName trig rs hvsc3 htrig hfrs3
      hcr hmut hup3
  simp only [ReconcileRS, henabled, hval3sec, hdel3, hval3, hcou3]

/-- Second ReconcileRS after a completed final sync (claim deleted by the
cleanup): the call reports completion again without further mutation. -/
theorem ReconcileRS_second_final (h : VSHandler) (rsSpec : VolSyncReplicationSourceSpec)
    (runFinalSync : Bool) (sec : SecretObj) (rs : RSObj) (s s1 s2 s3 s5 : ClusterState)
    (henabled : rsSpec.protectedPVC.protectedByVolSync = true)
    (hfs : findByKey secretKey (GetVolSyncSSHSecretNameFromVRGName h.ownerName,
      h.ownerNamespace) s.secrets = some sec)
    (hs1 : s1 = { s with secrets := (upsertBy secretKey
      { sec with ownerRefs := insertIfAbsent h.ownerName sec.ownerRefs } s.secrets) })
    (hs2 : s2 = DeleteRD h rsSpec.protectedPVC.name s1)
    (hcou : createOrUpdateRS h rsSpec (GetVolSyncSSHSecretNameFromVRGName h.ownerName)
      runFinalSync s2 = .ok (rs, s3))
    (hs5 : s5 = cleanupAfterRSFinalSync h rsSpec s3)
    (hready : isRSLastSyncTimeReady rs.status = true)
    (hfinal : runFinalSync = true)
    (hcomplete : isFinalSyncComplete rs = true) :
    ReconcileRS h rsSpec runFinalSync s5 = (.ok (true, some rs), s5) := by
  obtain ⟨hs3, hname, hnsp, hlab⟩ :=
    createOrUpdateRS_ok_inv h rsSpec (GetVolSyncSSHSecretNameFromVRGName h.ownerName)
      runFinalSync s2 rs s3 hcou
  obtain ⟨vscName, trig, base, hvsc, htrig, hbase, hrsm, hs3b⟩ :=
    createOrUpdateRS_ok_inv2 h rsSpec (GetVolSyncSSHSecretNameFromVRGName h.ownerName)
      runFinalSync s2 rs s3 hcou
  have hsec5 : s5.secrets = upsertBy secretKey
      { sec with ownerRefs := insertIfAbsent h.ownerName sec.ownerRefs } s.secrets := by
    rw [hs5]
    show s3.secrets = _
    rw [hs3]
    show s2.secrets = _
    rw [hs2, DeleteRD_secrets, hs1]
  have hval5sec := validateSecret_stable_of_secrets h sec s s5 hfs hsec5
  have hrd5 : s5.rdList = s2.rdList := by
    rw [hs5]
    show s3.rdList = _
    rw [hs3]
  have hdel5 : DeleteRD h rsSpec.protectedPVC.name s5 = s5 := by
    apply DeleteRD_id
    rw [hrd5, hs2]
    exact DeleteRD_no_owned h rsSpec.protectedPVC.name s1
  have hpvc5 : s5.pvcs = removeByKey pvcKey (rsSpec.protectedPVC.name, h.ownerNamespace)
      s3.pvcs := by
    rw [hs5]
    rfl
  have hex5 : pvcExistsAndInUse h s5 rsSpec.protectedPVC.name = false := by
    unfold pvcExistsAndInUse getPVC
    rw [hpvc5, findByKey_removeByKey_self]
  have hvalpvc5 : validatePVCBeforeFinalSync h rsSpec.protectedPVC.name runFinalSync s5
      = true := by
    simp only [validatePVCBeforeFinalSync, hfinal]
    rw [hex5]
    rfl
  have hsc5 : s5.storageClasses = s2.storageClasses := by
    rw [hs5]
    show s3.storageClasses = _
    rw [hs3]
  have hsnap5 : s5.snapClasses = s2.snapClasses := by
    rw [hs5]
    show s3.snapClasses = _
    rw [hs3]
  have hvsc5 : GetVolumeSnapshotClassFromPVCStorageClass h s5
      rsSpec.protectedPVC.storageClassName = .ok vscName := by
    rw [getVSC_congr h s5 s2 rsSpec.protectedPVC.storageClassName hsc5 hsnap5]
    exact hvsc
  have hrs5 : s5.rsList = upsertBy rsKey rs s2.rsList := by
    rw [hs5]
    show s3.rsList = _
    rw [hs3]
  have hkrs : rsKey rs = (getReplicationSourceName rsSpec.protectedPVC.name,
      h.ownerNamespace) := by
    show (rs.name, rs.nspace) = _
    rw [hname, hnsp]
  have hfrs5 : findByKey rsKey (getReplicationSourceName rsSpec.protectedPVC.name,
      h.ownerNamespace) s5.rsList = some rs := by
    rw [hrs5]
    exact findByKey_upsertBy_of_key rsKey rs s2.rsList _ hkrs
  have hcr : rs.controllerRef = some h.ownerName := by
    rw [hrsm]
    rfl
  have hmut : rsMutation h rsSpec (GetVolSyncSSHSecretNameFromVRGName h.ownerName) vscName
      trig (some h.ownerName) rs = rs := by
    rw [hrsm]
    exact rsMutation_idem h rsSpec (GetVolSyncSSHSecretNameFromVRGName h.ownerName) vscName
      trig base
  have hup5 : upsertBy rsKey rs s5.rsList = s5.rsList := by
    rw [hrs5]
    exact upsertBy_idem rsKey rs s2.rsList
  have hcou5 : createOrUpdateRS h rsSpec (GetVolSyncSSHSecretNameFromVRGName h.ownerName)
      runFinalSync s5 = .ok (rs, s5) :=
    createOrUpdateRS_stable h rsSpec _ runFinalSync s5 vscName trig rs hvsc5 htrig hfrs5
      hcr hmut hup5
  have hclean5 : cleanupAfterRSFinalSync h rsSpec s5 = s5 := by
    unfold cleanupAfterRSFinalSync deletePVC
    rw [hpvc5, removeByKey_filter_self, ← hpvc5]
  simp only [ReconcileRS, henabled, hval5sec, hdel5, hvalpvc5, hcou5, hready, hclean5]
  rw [if_pos (show runFinalSync = true ∧ isFinalSyncComplete rs = true
    from ⟨hfinal, hcomplete⟩)]

/-- A second ReconcileRS immediately after a successful call returns the
same triple and leaves the state untouched. -/
theorem ReconcileRS_idem (h : VSHandler) (rsSpec : VolSyncReplicationSourceSpec)
    (runFinalSync : Bool) (r : Bool × Option RSObj) (s s1 : ClusterState)
    (hok : ReconcileRS h rsSpec runFinalSync s = (.ok r, s1)) :
    ReconcileRS h rsSpec runFinalSync s1 = (.ok r, s1) := by
  cases henabled : rsSpec.protectedPVC.protectedByVolSync with
  | false =>
    simp only [ReconcileRS, henabled] at hok
    exact absurd (congrArg Prod.fst hok) (by simp)
  | true =>
    cases hfs : findByKey secretKey (GetVolSyncSSHSecretNameFromVRGName h.ownerName,
        h.ownerNamespace) s.secrets with
    | none =>
      simp only [ReconcileRS, henabled,
        validateSecret_not_found h (GetVolSyncSSHSecretNameFromVRGName h.ownerName) s hfs] at hok
      simp only [Prod.mk.injEq, Except.ok.injEq] at hok
      obtain ⟨hr, hs⟩ := hok
      subst hs
      subst hr
      simp only [ReconcileRS, henabled,
        validateSecret_not_found h (GetVolSyncSSHSecretNameFromVRGName h.ownerName) s hfs]
    | some sec =>
      simp only [ReconcileRS, henabled,
        validateSecret_found h (GetVolSyncSSHSecretNameFromVRGName h.ownerName) s sec hfs] at hok
      split at hok
      · rename_i hval
        simp only [Prod.mk.injEq, Except.ok.injEq] at hok
        obtain ⟨hr, hs⟩ := hok
        subst hs
        subst hr
        exact ReconcileRS_second_wait h rsSpec runFinalSync sec s _ _ henabled hfs rfl rfl hval
      · rename_i hval
        split at hok
        · exact absurd (congrArg Prod.fst hok) (by simp)
        · rename_i rs s3 hcou
          split at hok
          · rename_i hready
            simp only [Prod.mk.injEq, Except.ok.injEq] at hok
            obtain ⟨hr, hs⟩ := hok
            subst hs
            subst hr
            have hsecond := ReconcileRS_second_run h rsSpec runFinalSync sec rs s _ _ s3
              henabled hfs rfl rfl hval hcou
            simp only [hsecond, hready]
          · rename_i hready
            split at hok
            · rename_i hcond
              simp only [Prod.mk.injEq, Except.ok.injEq] at hok
              obtain ⟨hr, hs⟩ := hok
              subst hs
              subst hr
              exact ReconcileRS_second_final h rsSpec runFinalSync sec rs s _ _ s3 _
                henabled hfs rfl rfl hcou rfl hready hcond.1 hcond.2
            · rename_i hcond
              simp only [Prod.mk.injEq, Except.ok.injEq] at hok
              obtain ⟨hr, hs⟩ := hok
              subst hs
              subst hr
              have hsecond := ReconcileRS_second_run h rsSpec runFinalSync sec rs s _ _ s3
                henabled hfs rfl rfl hval hcou
              simp only [hsecond, hready]
              rw [if_neg hcond]

/-! ## Claim C4 and C10: the schedule translator -/

/-- A string built by appending to a non-empty front is non-empty. -/
theorem append3_ne_empty (a b c : String) (ha : ¬ a.length = 0) :
    ¬ (a ++ b ++ c = "") := by
  intro hcontra
  have h2 := congrArg String.length hcontra
  rw [String.length_append, String.length_append] at h2
  have h0 : ("" : String).length = 0 := rfl
  omega

/-- Claim C4: ConvertSchedulingIntervalToCronSpec maps "10m" to an
every-10-minutes cron spec and "4h" to an every-4-hours cron spec; a day
interval whose count exceeds 28 is clamped to 28; and the function fails for
every input shorter than 2 characters, every input whose prefix before the
unit does not parse as an integer, and every input whose trailing unit
character is not one of m, h, d case-insensitively. -/
theorem schedule_translation_C4 :
    (ConvertSchedulingIntervalToCronSpec "10m" = .ok "*/10 * * * *") ∧
    (ConvertSchedulingIntervalToCronSpec "4h" = .ok "0 */4 * * *") ∧
    (∀ s : String, ∀ n : Int, ¬ s.length < SchedulingIntervalMinLength →
      atoiGo (s.dropRight 1) = some n → n > CronSpecMaxDayOfMonth →
      strToLowerGo (s.takeRight 1) = "d" →
      ConvertSchedulingIntervalToCronSpec s = .ok "0 0 */28 * *") ∧
    (∀ s : String, s.length < SchedulingIntervalMinLength →
      ∃ e, ConvertSchedulingIntervalToCronSpec s = .error e) ∧
    (∀ s : String, ¬ s.length < SchedulingIntervalMinLength →
      atoiGo (s.dropRight 1) = none →
      ∃ e, ConvertSchedulingIntervalToCronSpec s = .error e) ∧
    (∀ s : String, ¬ s.length < SchedulingIntervalMinLength →
      ¬ strToLowerGo (s.takeRight 1) = "m" →
      ¬ strToLowerGo (s.takeRight 1) = "h" →
      ¬ strToLowerGo (s.takeRight 1) = "d" →
      ∃ e, ConvertSchedulingIntervalToCronSpec s = .error e) := by
  refine ⟨rfl, rfl, ?_, ?_, ?_, ?_⟩
  · intro s n hlen ha hn hd
    unfold ConvertSchedulingIntervalToCronSpec
    rw [if_neg hlen]
    simp only [ha, hd]
    rw [if_pos (show True ∧ n > CronSpecMaxDayOfMonth from ⟨trivial, hn⟩)]
    rw [if_neg (show ¬ ("d" : String) = "m" by decide)]
    rw [if_neg (show ¬ ("d" : String) = "h" by decide)]
    simp only [if_true]
    rw [if_neg (show ¬ ("0 0 */" ++ "28" ++ " * *" : String) = "" by decide)]
    rfl
  · intro s hlen
    refine ⟨"scheduling interval " ++ s ++ " is invalid", ?_⟩
    unfold ConvertSchedulingIntervalToCronSpec
    rw [if_pos hlen]
  · intro s hlen ha
    refine ⟨"scheduling interval prefix " ++ s.dropRight 1
      ++ " cannot be convered to an int value", ?_⟩
    unfold ConvertSchedulingIntervalToCronSpec
    rw [if_neg hlen]
    simp only [ha]
  · intro s hlen hm hh hd
    cases ha : atoiGo (s.dropRight 1) with
    | none =>
      refine ⟨"scheduling interval prefix " ++ s.dropRight 1
        ++ " cannot be convered to an int value", ?_⟩
      unfold ConvertSchedulingIntervalToCronSpec
      rw [if_neg hlen]
      simp only [ha]
    | some n =>
      refine ⟨"scheduling interval " ++ s ++ " is invalid. Unable to parse m/h/d", ?_⟩
      unfold ConvertSchedulingIntervalToCronSpec
      rw [if_neg hlen]
      simp only [ha]
      rw [if_neg hm, if_neg hh, if_neg hd]
      rw [if_pos (show ("" : String) = "" from rfl)]

/-- Witness for C4 at the concrete inputs named by the claim, including a
day count beyond the int64 range, where Atoi's range error makes the
translator fail instead of clamping. -/
theorem schedule_translation_C4_witness :
    ConvertSchedulingIntervalToCronSpec "40d" = .ok "0 0 */28 * *" ∧
    (∃ e, ConvertSchedulingIntervalToCronSpec "" = .error e) ∧
    (∃ e, ConvertSchedulingIntervalToCronSpec "5" = .error e) ∧
    (∃ e, ConvertSchedulingIntervalToCronSpec "5x" = .error e) ∧
    (∃ e, ConvertSchedulingIntervalToCronSpec "99999999999999999999d" = .error e) :=
  ⟨schedule_translation_C4.2.2.1 "40d" 40 (by decide) (by decide) (by decide) (by decide),
   schedule_translation_C4.2.2.2.1 "" (by decide),
   schedule_translation_C4.2.2.2.1 "5" (by decide),
   schedule_translation_C4.2.2.2.2.2 "5x" (by decide) (by decide) (by decide) (by decide),
   schedule_translation_C4.2.2.2.2.1 "99999999999999999999d" (by decide) (by decide)⟩

/-- Claim C10: the translator does not enforce a positive count: a prefix
parsing as a non-positive integer with a valid unit yields a cron spec
embedding that prefix with no error, and the 28-day clamp only fires for
counts strictly greater than 28, so non-positive day counts pass through. -/
theorem nonpositive_interval_passthrough_C10 :
    ∀ s : String, ∀ n : Int, ¬ s.length < SchedulingIntervalMinLength →
      atoiGo (s.dropRight 1) = some n → n ≤ 0 →
      (strToLowerGo (s.takeRight 1) = "m" →
        ConvertSchedulingIntervalToCronSpec s = .ok ("*/" ++ s.dropRight 1 ++ " * * * *")) ∧
      (strToLowerGo (s.takeRight 1) = "h" →
        ConvertSchedulingIntervalToCronSpec s = .ok ("0 */" ++ s.dropRight 1 ++ " * * *")) ∧
      (strToLowerGo (s.takeRight 1) = "d" →
        ConvertSchedulingIntervalToCronSpec s = .ok ("0 0 */" ++ s.dropRight 1 ++ " * *")) := by
  intro s n hlen ha hn
  refine ⟨?_, ?_, ?_⟩
  · intro hm
    unfold ConvertSchedulingIntervalToCronSpec
    rw [if_neg hlen]
    simp only [ha, hm]
    simp only [if_true]
    rw [if_neg (append3_ne_empty "*/" (s.dropRight 1) " * * * *" (by decide))]
  · intro hh
    unfold ConvertSchedulingIntervalToCronSpec
    rw [if_neg hlen]
    simp only [ha, hh]
    rw [if_neg (show ¬ ("h" : String) = "m" by decide)]
    simp only [if_true]
    rw [if_neg (append3_ne_empty "0 */" (s.dropRight 1) " * * *" (by decide))]
  · intro hd
    unfold ConvertSchedulingIntervalToCronSpec
    rw [if_neg hlen]
    simp only [ha, hd]
    rw [if_neg (show ¬ (True ∧ n > CronSpecMaxDayOfMonth) from
      fun hc => absurd hc.2 (by simp only [CronSpecMaxDayOfMonth]; omega))]
    rw [if_neg (show ¬ ("d" : String) = "m" by decide)]
    rw [if_neg (show ¬ ("d" : String) = "h" by decide)]
    simp only [if_true]
    rw [if_neg (append3_ne_empty "0 0 */" (s.dropRight 1) " * *" (by decide))]

/-- Witness for C10 at the inputs named by the claim. -/
theorem nonpositive_interval_passthrough_C10_witness :
    ConvertSchedulingIntervalToCronSpec "-5m" = .ok "*/-5 * * * *" ∧
    ConvertSchedulingIntervalToCronSpec "0m" = .ok "*/0 * * * *" ∧
    ConvertSchedulingIntervalToCronSpec "-5d" = .ok "0 0 */-5 * *" :=
  ⟨(nonpositive_interval_passthrough_C10 "-5m" (-5) (by decide) (by decide) (by decide)).1
      (by decide),
   (nonpositive_interval_passthrough_C10 "0m" 0 (by decide) (by decide) (by decide)).1
      (by decide),
   (nonpositive_interval_passthrough_C10 "-5d" (-5) (by decide) (by decide) (by decide)).2.2
      (by decide)⟩


/-- C9: idempotence of reconciliation — after a successful ReconcileRD
(respectively ReconcileRS) call, running the same call again on the resulting
state returns the same answer and performs no additional mutation: the final
state is unchanged (the second create-or-update submits the same object
content, re-applying only the owner label and owner reference, which are
already in place). -/
theorem reconcile_idempotent_C9 :
    (∀ (h : VSHandler) (rdSpec : VolSyncReplicationDestinationSpec) (r : Option RDObj)
        (s s1 : ClusterState), ReconcileRD h rdSpec s = (.ok r, s1) →
        ReconcileRD h rdSpec s1 = (.ok r, s1)) ∧
    (∀ (h : VSHandler) (rsSpec : VolSyncReplicationSourceSpec) (runFinalSync : Bool)
        (r : Bool × Option RSObj) (s s1 : ClusterState),
        ReconcileRS h rsSpec runFinalSync s = (.ok r, s1) →
        ReconcileRS h rsSpec runFinalSync s1 = (.ok r, s1)) :=
  ⟨fun h rdSpec r s s1 hok => ReconcileRD_idem h rdSpec r s s1 hok,
   fun h rsSpec runFinalSync r s s1 hok => ReconcileRS_idem h rsSpec runFinalSync r s s1 hok⟩

theorem reconcile_idempotent_C9_witness :
    ReconcileRD exHandler exRDSpec (ReconcileRD exHandler exRDSpec exBaseState).2
        = (.ok none, (ReconcileRD exHandler exRDSpec exBaseState).2) ∧
    ReconcileRS exHandler exRSSpec false exEmptyState = (.ok (false, none), exEmptyState) :=
  ⟨reconcile_idempotent_C9.1 exHandler exRDSpec none exBaseState
      (ReconcileRD exHandler exRDSpec exBaseState).2 rfl,
   reconcile_idempotent_C9.2 exHandler exRSSpec false (false, none) exEmptyState
      exEmptyState rfl⟩

end VolSync
